import Mathlib

/-!
Verification development for the workflow orchestration engine of the
tableau-cloud-mcp-server repository (src/tableau_mcp_server/workflow_orchestrator.py).

The Python module is embedded shallowly:
* JSON-like Python values (step arguments, step results, rollback descriptors)
  become the inductive type `PyVal`; Python dicts are association lists in
  insertion order, Python `None` is `PyVal.null`.
* The dataclasses `WorkflowStep` / `WorkflowPlan` become structures.  The
  Python `WorkflowPlan` dataclass declares NO `status` field: the attribute is
  created dynamically by the first assignment (`workflow.status = ...`), so the
  embedded plan carries `status : Option WorkflowStatus` with `none` meaning
  "attribute not set yet".  Steps do declare `status` with default PENDING.
* All `async` functions are sequential in the source (each step awaited in
  turn), so they are embedded as pure functions; external effects (the Tableau
  tool client, the rollback actions) are oracle parameters, and ghost traces
  record tool invocations, rollback replays and status-field assignments.
* `datetime`-based bookkeeping (`created_at`, `execution_time`) and logging are
  not needed by any claim and are omitted; `uuid` fresh plan ids are passed in
  as an explicit `freshId` argument.
-/

/-- `WorkflowStatus` enum of the source (workflow_orchestrator.py lines 25-33). -/
inductive WorkflowStatus where
  | pending
  | in_progress
  | waiting_confirmation
  | completed
  | failed
  | cancelled
  | rolled_back
deriving DecidableEq, Repr

/-- `OperationType` enum of the source (lines 36-44). -/
inductive OperationType where
  | read
  | create
  | update
  | delete
  | move
  | publish
  | refresh
deriving DecidableEq, Repr

/-- JSON-like Python values: step arguments, results, rollback descriptors.
Dicts are association lists in insertion order. -/
inductive PyVal where
  | null : PyVal
  | bool : Bool → PyVal
  | int : Int → PyVal
  | str : String → PyVal
  | list : List PyVal → PyVal
  | obj : List (String × PyVal) → PyVal

/-- Python truthiness (`if value:`): None, False, 0, "", [], {} are falsy. -/
def PyVal.truthy : PyVal → Bool
  | .null => false
  | .bool b => b
  | .int n => n != 0
  | .str s => !s.isEmpty
  | .list xs => !xs.isEmpty
  | .obj kvs => !kvs.isEmpty

/-- Association-list lookup, first binding wins (Python dict key access). -/
def alGet {α : Type} (kvs : List (String × α)) (k : String) : Option α :=
  match kvs.find? (fun kv => kv.1 == k) with
  | some kv => some kv.2
  | none => none

/-- Python `d.get(k, default)`: the stored value when the key is present
(even when that value is `None`), the default otherwise. -/
def pyGet (kvs : List (String × PyVal)) (k : String) (default : PyVal) : PyVal :=
  match alGet kvs k with
  | some v => v
  | none => default

/-- Python `a or b` specialised to values: `b` when `a` is falsy. -/
def pyOr (a b : PyVal) : PyVal :=
  if a.truthy then a else b

/-- Python `v == "s"` for a dynamically typed `v`: false on non-strings. -/
def valEqStr (v : PyVal) (s : String) : Bool :=
  match v with
  | .str t => t == s
  | _ => false

/-- Rendering used for the f-string interpolations the orchestrator performs on
scalar slot values (`f"... {user} ..."`).  Collection repr is never interpolated
on any path exercised here and is rendered with a placeholder. -/
def pyStrOfVal : PyVal → String
  | .null => "None"
  | .bool true => "True"
  | .bool false => "False"
  | .int n => toString n
  | .str s => s
  | .list _ => "[...]"
  | .obj _ => "\x7b...\x7d"

/-- `Optional[str]` slot rendered into an f-string (`None` for a missing slot). -/
def pyShowOpt : Option String → String
  | some s => s
  | none => "None"

/-- `WorkflowStep` dataclass (lines 47-64).  `execution_time` and timing are
omitted (no claim concerns them). -/
structure WorkflowStep where
  id : String
  description : String
  tool_name : String
  arguments : List (String × PyVal)
  operation_type : OperationType
  dependencies : List String := []
  rollback_info : Option (List (String × PyVal)) := none
  status : WorkflowStatus := .pending
  result : Option PyVal := none
  error : Option String := none

/-- `WorkflowPlan` dataclass (lines 67-98).  The Python dataclass declares no
`status` field; `status = none` models the attribute not existing yet. -/
structure WorkflowPlan where
  id : String
  title : String
  description : String
  steps : List WorkflowStep
  estimated_duration : Option Nat := none
  risk_level : String := "low"
  requires_confirmation : Bool := false
  rollback_supported : Bool := true
  status : Option WorkflowStatus := none

/-- `WorkflowPlan.has_destructive_operations` property (lines 84-88). -/
def WorkflowPlan.has_destructive_operations (wf : WorkflowPlan) : Bool :=
  wf.steps.any (fun s => s.operation_type == .delete || s.operation_type == .move)

/-- `WorkflowPlan.total_steps` property (lines 90-93). -/
def WorkflowPlan.total_steps (wf : WorkflowPlan) : Nat :=
  wf.steps.length

/-- `WorkflowPlan.completed_steps` property (lines 95-98). -/
def WorkflowPlan.completed_steps (wf : WorkflowPlan) : Nat :=
  (wf.steps.filter (fun s => s.status == .completed)).length

/-! ### Intent parser: character-level helpers

The parser lowercases requests and applies `re.search` with IGNORECASE over a
handful of fixed patterns built from `\w+`, `\s+`, optional groups, literals
and alternation.  Because `\w` and `\s` are disjoint character classes and each
quantified class is followed by a class disjoint from it, leftmost search with
maximal munch (plus explicit alternation for the optional groups) computes
exactly the Python match.  Everything is done on `String.data` character lists;
the requests under consideration are ASCII. -/

/-- Python `\w` (ASCII): letters, digits, underscore. -/
def isWordChar (c : Char) : Bool :=
  (48 ≤ c.toNat && c.toNat ≤ 57) || (65 ≤ c.toNat && c.toNat ≤ 90) ||
    (97 ≤ c.toNat && c.toNat ≤ 122) || c.toNat == 95

/-- Python `\s` (ASCII). -/
def isSpaceChar (c : Char) : Bool :=
  c.toNat == 32 || c.toNat == 9 || c.toNat == 10 || c.toNat == 13 ||
    c.toNat == 11 || c.toNat == 12

/-- ASCII lowercase of one character (Python `str.lower` on ASCII input). -/
def pyLowerChar (c : Char) : Char :=
  if 65 ≤ c.toNat && c.toNat ≤ 90 then Char.ofNat (c.toNat + 32) else c

/-- Lowercased request (`request.lower()`). -/
def pyLower (s : String) : String :=
  String.mk (s.data.map pyLowerChar)

/-- Substring test (`pattern in request_lower`). -/
def listContainsSub (needle : List Char) : List Char → Bool
  | [] => needle.isEmpty
  | c :: cs => needle.isPrefixOf (c :: cs) || listContainsSub needle cs

/-- `needle in hay` on strings. -/
def strContains (hay needle : String) : Bool :=
  listContainsSub needle.data hay.data

/-- Case-insensitive literal: consume `lit` from the front, return the rest. -/
def litCI : List Char → List Char → Option (List Char)
  | [], cs => some cs
  | _ :: _, [] => none
  | l :: ls, c :: cs => if pyLowerChar c == pyLowerChar l then litCI ls cs else none

/-- Maximal `\w+`-style run: the run and the remainder. -/
def charRun (p : Char → Bool) (cs : List Char) : List Char × List Char :=
  (cs.takeWhile p, cs.dropWhile p)

/-- `re.search` driver: try the matcher at each start position, leftmost first
(including the empty suffix, as `re.search` does). -/
def searchFirst {α : Type} (f : List Char → Option α) : List Char → Option α
  | [] => f []
  | c :: cs =>
    match f (c :: cs) with
    | some r => some r
    | none => searchFirst f cs

/-- `(\w+)\s+project` matched at the current position; returns the group. -/
def matchWordSpProject (cs : List Char) : Option (List Char) :=
  match charRun isWordChar cs with
  | (w, r1) =>
    if w.isEmpty then none else
    match charRun isSpaceChar r1 with
    | (sp, r2) =>
      if sp.isEmpty then none else
      match litCI "project".data r2 with
      | some _ => some w
      | none => none

/-- `(?:in|from)\s+(?:the\s+)?(\w+)\s+project` matched at the current position. -/
def matchProjP1At (cs : List Char) : Option (List Char) :=
  match (litCI "in".data cs).orElse (fun _ => litCI "from".data cs) with
  | none => none
  | some r1 =>
    match charRun isSpaceChar r1 with
    | (sp, r2) =>
      if sp.isEmpty then none else
      let withThe : Option (List Char) :=
        match litCI "the".data r2 with
        | some r3 =>
          match charRun isSpaceChar r3 with
          | (sp2, r4) => if sp2.isEmpty then none else matchWordSpProject r4
        | none => none
      withThe.orElse (fun _ => matchWordSpProject r2)

/-- `project\s+(\w+)` matched at the current position. -/
def matchProjP3At (cs : List Char) : Option (List Char) :=
  match litCI "project".data cs with
  | none => none
  | some r1 =>
    match charRun isSpaceChar r1 with
    | (sp, r2) =>
      if sp.isEmpty then none else
      match charRun isWordChar r2 with
      | (w, _) => if w.isEmpty then none else some w

/-- `WorkflowIntentParser._extract_project_name` (lines 383-399): the three
patterns tried in order, each via `re.search`. -/
def extract_project_name (request : String) : Option String :=
  match searchFirst matchProjP1At request.data with
  | some w => some (String.mk w)
  | none =>
    match searchFirst matchWordSpProject request.data with
    | some w => some (String.mk w)
    | none =>
      match searchFirst matchProjP3At request.data with
      | some w => some (String.mk w)
      | none => none

/-- `(\w+\.?\w*)` matched at the current position: maximal word run, optional
dot, maximal word run (the classes are disjoint, so maximal munch is exact). -/
def matchNameTok (cs : List Char) : Option (List Char × List Char) :=
  match charRun isWordChar cs with
  | (w1, r1) =>
    if w1.isEmpty then none else
    match r1 with
    | c :: r2 =>
      if c == Char.ofNat 46 then
        match charRun isWordChar r2 with
        | (w2, r3) => some (w1 ++ [Char.ofNat 46] ++ w2, r3)
      else some (w1, r1)
    | [] => some (w1, [])

/-- `(\w+\.?\w*)\x27s\s+content` at the current position. -/
def matchUserPossessive (cs : List Char) : Option (List Char) :=
  match matchNameTok cs with
  | none => none
  | some (name, r1) =>
    match r1 with
    | c :: r2 =>
      if c == Char.ofNat 39 then
        match litCI "s".data r2 with
        | none => none
        | some r3 =>
          match charRun isSpaceChar r3 with
          | (sp, r4) =>
            if sp.isEmpty then none else
            match litCI "content".data r4 with
            | some _ => some name
            | none => none
      else none
    | [] => none

/-- `KEYWORD\s+(\w+\.?\w*)` at the current position (for `user`, `migrate`,
`to`, `assign\s+to`, `transfer\s+to` style patterns; the keyword may itself
contain a space run encoded with `litCI` pieces supplied by the caller). -/
def matchKwName (kw : String) (cs : List Char) : Option (List Char) :=
  match litCI kw.data cs with
  | none => none
  | some r1 =>
    match charRun isSpaceChar r1 with
    | (sp, r2) =>
      if sp.isEmpty then none else
      match matchNameTok r2 with
      | some (name, _) => some name
      | none => none

/-- `(\w+\.?\w*)\s+LIT` with optional trailing literal piece (`leaves?` is
`leave` then an optional `s`, which constrains nothing after matching). -/
def matchNameSpLit (lit : String) (cs : List Char) : Option (List Char) :=
  match matchNameTok cs with
  | none => none
  | some (name, r1) =>
    match charRun isSpaceChar r1 with
    | (sp, r2) =>
      if sp.isEmpty then none else
      match litCI lit.data r2 with
      | some _ => some name
      | none => none

/-- `WorkflowIntentParser._extract_username` (lines 444-462). -/
def extract_username (request : String) : Option String :=
  let cs := request.data
  match searchFirst matchUserPossessive cs with
  | some w => some (String.mk w)
  | none =>
    match searchFirst (matchKwName "user") cs with
    | some w => some (String.mk w)
    | none =>
      match searchFirst (matchKwName "migrate") cs with
      | some w => some (String.mk w)
      | none =>
        match searchFirst (matchNameSpLit "leave") cs with
        | some w => some (String.mk w)
        | none =>
          match searchFirst (matchNameSpLit "leaving") cs with
          | some w => some (String.mk w)
          | none => none

/-- `assign\s+to\s+(\w+...)` / `transfer\s+to\s+(\w+...)`: keyword, spaces,
`to`, spaces, name. -/
def matchKwToName (kw : String) (cs : List Char) : Option (List Char) :=
  match litCI kw.data cs with
  | none => none
  | some r1 =>
    match charRun isSpaceChar r1 with
    | (sp, r2) =>
      if sp.isEmpty then none else
      matchKwName "to" r2

/-- `WorkflowIntentParser._extract_target_user` (lines 414-429); falls back to
`"team_lead"`. -/
def extract_target_user (request : String) : String :=
  let cs := request.data
  match searchFirst (matchKwName "to") cs with
  | some w => String.mk w
  | none =>
    match searchFirst (matchKwToName "assign") cs with
    | some w => String.mk w
    | none =>
      match searchFirst (matchKwToName "transfer") cs with
      | some w => String.mk w
      | none => "team_lead"

/-- `WorkflowIntentParser._extract_cleanup_criteria` (lines 401-412). -/
def extract_cleanup_criteria (request : String) : List (String × PyVal) :=
  let lower := pyLower request
  (if strContains lower "old" then [("age_threshold", PyVal.int 90)] else []) ++
  (if strContains lower "unused" then [("usage_threshold", PyVal.int 180)] else []) ++
  (if strContains lower "archive" then [("action", PyVal.str "archive")] else [])

/-- `WorkflowIntentParser._extract_audit_scope` (lines 431-442): starts from
`{"target": "all"}`; `"sensitive"` overwrites the `target` entry in place. -/
def extract_audit_scope (request : String) : List (String × PyVal) :=
  let lower := pyLower request
  [("target", if strContains lower "sensitive" then PyVal.str "sensitive" else PyVal.str "all")] ++
  (if strContains lower "permissions" then [("type", PyVal.str "permissions")] else []) ++
  (if strContains lower "compliance" then [("compliance", PyVal.bool true)] else [])

/-! ### Intent parser: templates and fallback (lines 101-482)

The orchestrator is constructed without an OpenAI key in every scenario the
claims concern, so `self.llm is None` and `parse_workflow_intent` either
instantiates a matched template or falls back to `_pattern_parse_workflow`.
`uuid.uuid4()` plan ids are passed in as `freshId`. -/

/-- Result of `_match_workflow_template` (lines 187-226). -/
inductive TemplateMatch where
  | cleanup (project : Option String) (criteria : List (String × PyVal))
  | migration (user : Option String) (target_user : String)
  | audit (scope : List (String × PyVal))

/-- `_match_workflow_template`: keyword containment on the lowercased request,
cleanup patterns first, then migration, then audit. -/
def match_workflow_template (request : String) : Option TemplateMatch :=
  let lower := pyLower request
  if ["clean up", "cleanup", "archive old", "remove unused",
      "organize content", "tidy up"].any (fun p => strContains lower p) then
    some (.cleanup (extract_project_name request) (extract_cleanup_criteria request))
  else if ["migrate", "transfer", "move user", "reassign",
      "user leaving", "offboard"].any (fun p => strContains lower p) then
    some (.migration (extract_username request) (extract_target_user request))
  else if ["audit", "review permissions", "check access",
      "security review", "compliance check"].any (fun p => strContains lower p) then
    some (.audit (extract_audit_scope request))
  else
    none

/-- `_create_cleanup_workflow` (lines 273-321).  `template_match["project"]` is
always present (possibly `None`), so the `.get` default `"all projects"` is
never used; a `None` project interpolates as `"None"` and, being `!= "all
projects"`, still produces a `project_name` argument (of value `None`). -/
def create_cleanup_workflow (freshId : String) (project : Option String)
    (_request : String) : WorkflowPlan :=
  let projTxt := pyShowOpt project
  let projVal : PyVal := match project with
    | some p => .str p
    | none => .null
  { id := freshId
    title := "Content Cleanup - " ++ projTxt
    description := "Clean up and organize content in " ++ projTxt
    steps :=
      [ { id := "analyze_content"
          description := "Analyze content in " ++ projTxt ++ " for cleanup opportunities"
          tool_name := "search_workbooks"
          arguments := if project == some "all projects" then [] else [("project_name", projVal)]
          operation_type := .read }
      , { id := "identify_candidates"
          description := "Identify unused or old content for archival"
          tool_name := "analyze_usage_patterns"
          arguments := [("days_threshold", .int 90)]
          operation_type := .read
          dependencies := ["analyze_content"] }
      , { id := "confirm_archival"
          description := "Confirm content to be archived"
          tool_name := "request_user_confirmation"
          arguments := [("action", .str "archive"), ("items", .str "\x7b\x7bidentified_candidates\x7d\x7d")]
          operation_type := .read
          dependencies := ["identify_candidates"] }
      , { id := "archive_content"
          description := "Move selected content to Archive project"
          tool_name := "bulk_move_content"
          arguments := [("target_project", .str "Archive"), ("items", .str "\x7b\x7bconfirmed_items\x7d\x7d")]
          operation_type := .move
          dependencies := ["confirm_archival"]
          rollback_info := some [("action", .str "restore_from_archive")] } ]
    estimated_duration := some 15
    risk_level := "medium"
    requires_confirmation := true
    rollback_supported := true }

/-- `_create_migration_workflow` (lines 323-381).  As with cleanup, the slot
keys are always present in `template_match`, so the `.get` defaults
(`"unknown_user"`) are dead; `user` may be `None`. -/
def create_migration_workflow (freshId : String) (user : Option String)
    (target_user : String) (_request : String) : WorkflowPlan :=
  let userTxt := pyShowOpt user
  let userVal : PyVal := match user with
    | some u => .str u
    | none => .null
  { id := freshId
    title := "User Migration - " ++ userTxt
    description := "Migrate content and permissions for departing user " ++ userTxt
    steps :=
      [ { id := "inventory_content"
          description := "Inventory all content owned by " ++ userTxt
          tool_name := "get_user_content"
          arguments := [("username", userVal)]
          operation_type := .read }
      , { id := "analyze_importance"
          description := "Analyze content importance and usage patterns"
          tool_name := "analyze_content_importance"
          arguments := [("user", userVal)]
          operation_type := .read
          dependencies := ["inventory_content"] }
      , { id := "plan_migration"
          description := "Plan content ownership transfer"
          tool_name := "create_migration_plan"
          arguments := [("from_user", userVal), ("to_user", .str target_user)]
          operation_type := .read
          dependencies := ["analyze_importance"] }
      , { id := "transfer_ownership"
          description := "Transfer content ownership from " ++ userTxt
          tool_name := "bulk_transfer_ownership"
          arguments := [("from_user", userVal), ("migration_plan", .str "\x7b\x7bmigration_plan\x7d\x7d")]
          operation_type := .update
          dependencies := ["plan_migration"]
          rollback_info := some [("action", .str "restore_ownership"), ("original_user", userVal)] }
      , { id := "update_permissions"
          description := "Update permissions and access controls"
          tool_name := "update_user_permissions"
          arguments := [("user", userVal), ("action", .str "revoke_all")]
          operation_type := .update
          dependencies := ["transfer_ownership"]
          rollback_info := some [("action", .str "restore_permissions")] } ]
    estimated_duration := some 25
    risk_level := "high"
    requires_confirmation := true
    rollback_supported := true }

/-- `_create_audit_workflow` (lines 241-271). -/
def create_audit_workflow (freshId : String) (_scope : List (String × PyVal))
    (request : String) : WorkflowPlan :=
  { id := freshId
    title := "Permission Audit"
    description := "Audit permissions: " ++ request
    steps :=
      [ { id := "identify_content"
          description := "Identify content for audit"
          tool_name := "search_workbooks"
          arguments := [("project_name", .str "all")]
          operation_type := .read }
      , { id := "analyze_permissions"
          description := "Analyze current permissions"
          tool_name := "list_content_permissions"
          arguments := [("content_type", .str "workbook")]
          operation_type := .read
          dependencies := ["identify_content"] } ]
    estimated_duration := some 20
    risk_level := "low"
    requires_confirmation := false }

/-- `_pattern_parse_workflow` (lines 130-185): read-intent keywords yield a
single READ step; anything else a confirmation-gated generic two-step plan. -/
def pattern_parse_workflow (freshId : String) (user_request : String) : WorkflowPlan :=
  let lower := pyLower user_request
  if ["list", "show", "find", "search"].any (fun w => strContains lower w) then
    { id := freshId
      title := "Content Search"
      description := "Search operation: " ++ user_request
      steps :=
        [ { id := "search_content"
            description := "Search for content based on: " ++ user_request
            tool_name := "search_workbooks"
            arguments := [("name", .str "")]
            operation_type := .read } ]
      estimated_duration := some 2
      risk_level := "low"
      requires_confirmation := false }
  else
    { id := freshId
      title := "Generic Workflow"
      description := "Process request: " ++ user_request
      steps :=
        [ { id := "analyze_request"
            description := "Analyze request: " ++ user_request
            tool_name := "analyze_usage_patterns"
            arguments := [("request", .str user_request)]
            operation_type := .read }
        , { id := "execute_action"
            description := "Execute the requested action"
            tool_name := "request_user_confirmation"
            arguments := [("action", .str "generic"), ("items", .list [])]
            operation_type := .update
            dependencies := ["analyze_request"] } ]
      estimated_duration := some 10
      risk_level := "medium"
      requires_confirmation := true }

/-- `_instantiate_template` (lines 228-239). -/
def instantiate_template (freshId : String) (tm : TemplateMatch) (request : String) :
    WorkflowPlan :=
  match tm with
  | .cleanup project _criteria => create_cleanup_workflow freshId project request
  | .migration user target => create_migration_workflow freshId user target request
  | .audit scope => create_audit_workflow freshId scope request

/-- `parse_workflow_intent` (lines 108-122) with `llm = None`. -/
def parse_workflow_intent (freshId : String) (user_request : String) : WorkflowPlan :=
  match match_workflow_template user_request with
  | some tm => instantiate_template freshId tm user_request
  | none => pattern_parse_workflow freshId user_request

/-! ### Validator (lines 485-584) -/

/-- The risk-assessment mapping returned by `_assess_risk` (lines 520-554). -/
structure RiskAssessment where
  score : Nat
  level : String
  factors : List String
  requires_confirmation : Bool
deriving DecidableEq, Repr

/-- Per-step contribution to the risk score (lines 526-534). -/
def stepRiskScore (s : WorkflowStep) : Nat :=
  match s.operation_type with
  | .delete => 3
  | .move => 2
  | .update => 1
  | _ => 0

/-- Per-step contribution to the risk factors list (lines 526-534). -/
def stepRiskFactors (s : WorkflowStep) : List String :=
  match s.operation_type with
  | .delete => ["Delete operation: " ++ s.description]
  | .move => ["Move operation: " ++ s.description]
  | _ => []

/-- `WorkflowValidator._assess_risk` (lines 520-554). -/
def assess_risk (wf : WorkflowPlan) : RiskAssessment :=
  let stepScore := (wf.steps.map stepRiskScore).sum
  let score := stepScore + (if 10 < wf.total_steps then 2 else 0)
  let factors := (wf.steps.map stepRiskFactors).flatten ++
    (if 10 < wf.total_steps then ["Large number of operations"] else [])
  { score := score
    level := if 8 ≤ score then "high" else if 4 ≤ score then "medium" else "low"
    factors := factors
    requires_confirmation := 3 ≤ score }

/-- `WorkflowValidator._tool_exists` (lines 580-584): the source stub always
returns `True` ("For now, assume all tools exist"). -/
def tool_exists (_tool_name : String) : Bool :=
  true

/-- `WorkflowValidator._validate_step` (lines 556-570): errors only (the
warnings list is always empty in the source). -/
def validate_step (s : WorkflowStep) : List String :=
  (if tool_exists s.tool_name then [] else ["Unknown tool: " ++ s.tool_name]) ++
  (if (s.tool_name == "move_workbook" || s.tool_name == "move_datasource") &&
      (alGet s.arguments "target_project_id").isNone &&
      (alGet s.arguments "target_project_name").isNone then
    ["Move operation missing target project"]
  else [])

/-- The validation mapping of `validate_workflow` (lines 491-518); the
`dependency_check` and `resource_check` sub-mappings are the source constants
`{"valid": True, "issues": []}` / `{"available": True, "concerns": []}`. -/
structure ValidationResult where
  valid : Bool
  warnings : List String
  errors : List String
  risk_assessment : RiskAssessment
  dependency_check_valid : Bool := true
  resource_check_available : Bool := true
deriving DecidableEq, Repr

/-- `WorkflowValidator.validate_workflow` (lines 491-518). -/
def validate_workflow (wf : WorkflowPlan) : ValidationResult :=
  let stepErrors := (wf.steps.map validate_step).flatten
  { valid := stepErrors.isEmpty
    warnings :=
      if wf.has_destructive_operations then
        ["Workflow contains potentially destructive operations"]
      else []
    errors := stepErrors
    risk_assessment := assess_risk wf }

/-! ### Executor: template-variable substitution (lines 978-1013) -/

/-- Python `s.strip()` on a character list. -/
def pyStrip (cs : List Char) : List Char :=
  ((cs.dropWhile isSpaceChar).reverse.dropWhile isSpaceChar).reverse

/-- Python `s.split(".")`. -/
def splitOnDot : List Char → List (List Char)
  | [] => [[]]
  | c :: cs =>
    if c == Char.ofNat 46 then [] :: splitOnDot cs
    else
      match splitOnDot cs with
      | [] => [[c]]
      | p :: ps => (c :: p) :: ps

/-- The dot-separated components of a reference (`var_name.split(".")`). -/
def pySplitDot (s : String) : List String :=
  (splitOnDot s.data).map String.mk

/-- Is an argument value exactly a double-brace-wrapped template reference
(`isinstance(value, str) and value.startswith("\x7b\x7b") and
value.endswith("\x7d\x7d")`)?  Returns the stripped reference name
(`value[2:-2].strip()`). -/
def template_ref_of (v : PyVal) : Option String :=
  match v with
  | .str s =>
    let cs := s.data
    if [Char.ofNat 123, Char.ofNat 123].isPrefixOf cs &&
        [Char.ofNat 125, Char.ofNat 125].isSuffixOf cs then
      some (String.mk (pyStrip ((cs.drop 2).take (cs.length - 4))))
    else none
  | _ => none

/-- Component-by-component nested lookup (`for part in parts: current =
current[part]`); indexing a non-dict raises TypeError, a missing key KeyError,
both caught by the source and treated as lookup failure. -/
def descendPath : PyVal → List String → Option PyVal
  | v, [] => some v
  | .obj kvs, p :: ps =>
    match alGet kvs p with
    | some v => descendPath v ps
    | none => none
  | _, _ :: _ => none

/-- The loop body of the scan over `workflow.steps` (lines 989-1005) for one
step: `some` models `break` with a resolved value, `none` models falling
through to the next step (`continue`, a non-dict or falsy result, a skipped
non-COMPLETED step, or a failed lookup). -/
def scan_step_once (ref : String) (s : WorkflowStep) : Option PyVal :=
  match s.result with
  | some r =>
    if s.status == WorkflowStatus.completed && r.truthy then
      match r with
      | .obj kvs =>
        (match alGet kvs ref with
         | some v => some v
         | none =>
           if strContains ref "." then descendPath (PyVal.obj kvs) (pySplitDot ref)
           else none)
      | _ => none
    else none
  | none => none

/-- The per-reference scan over `workflow.steps` (lines 989-1005): the first
COMPLETED step with a truthy dict result that either has the reference as a
top-level key or (for dotted references) supports the nested descent wins;
everything else falls through to the next step. -/
def scan_steps_for_ref (ref : String) : List WorkflowStep → Option PyVal
  | [] => none
  | s :: rest =>
    match scan_step_once ref s with
    | some v => some v
    | none => scan_steps_for_ref ref rest

/-- Resolution of one argument value; an unresolved reference keeps the
original placeholder (`if key not in resolved: resolved[key] = value`). -/
def resolve_arg_value (wf : WorkflowPlan) (v : PyVal) : PyVal :=
  match template_ref_of v with
  | some ref =>
    match scan_steps_for_ref ref wf.steps with
    | some r => r
    | none => v
  | none => v

/-- `WorkflowExecutor._resolve_template_variables` (lines 978-1013).  Python
dict keys are unique, so the per-key `resolved` bookkeeping of the source is
exactly an independent per-entry map. -/
def resolve_template_variables (wf : WorkflowPlan)
    (args : List (String × PyVal)) : List (String × PyVal) :=
  args.map (fun kv => (kv.1, resolve_arg_value wf kv.2))

/-! ### Executor: workflow pseudo-tools (lines 702-976)

Each pseudo-tool is a pure function from resolved arguments to
`Except String PyVal`; `.error` models an uncaught Python exception inside the
tool (which `_execute_step` then catches). -/

/-- `_analyze_usage_patterns` (lines 724-756). -/
def tool_analyze_usage_patterns (args : List (String × PyVal)) : Except String PyVal :=
  let days_threshold := pyGet args "days_threshold" (.int 90)
  let project_name := pyGet args "project_name" .null
  .ok (.obj
    [ ("analysis_completed", .bool true)
    , ("days_threshold", days_threshold)
    , ("candidates", .list
        [ .obj [ ("id", .str "wb_123"), ("name", .str "Old Sales Report")
               , ("type", .str "workbook"), ("last_accessed", .str "2023-06-15")
               , ("days_since_access", .int 120), ("owner", .str "john.doe")
               , ("project", pyOr project_name (.str "Sales")) ]
        , .obj [ ("id", .str "wb_456"), ("name", .str "Quarterly Analysis Backup")
               , ("type", .str "workbook"), ("last_accessed", .str "2023-07-20")
               , ("days_since_access", .int 95), ("owner", .str "jane.smith")
               , ("project", pyOr project_name (.str "Finance")) ] ])
    , ("total_candidates", .int 2)
    , ("estimated_storage_savings", .str "1.2GB") ])

/-- `_request_user_confirmation` (lines 758-774). -/
def tool_request_user_confirmation (args : List (String × PyVal)) : Except String PyVal :=
  let action := pyGet args "action" (.str "unknown")
  let items := pyGet args "items" (.list [])
  let auto_confirm := valEqStr action "archive" || valEqStr action "move"
  let items_count : Int := match items with
    | .list xs => (xs.length : Int)
    | _ => 0
  .ok (.obj
    [ ("confirmation_requested", .bool true)
    , ("action", action)
    , ("items_count", .int items_count)
    , ("auto_confirmed", .bool auto_confirm)
    , ("confirmed_items", if auto_confirm then items else .list [])
    , ("message", .str ("Auto-confirmed " ++ pyStrOfVal action ++ " action for demo purposes")) ])

/-- Python `for item in items`: lists yield elements, strings yield one-char
strings, dicts yield their keys, anything else raises TypeError. -/
def pyIterate : PyVal → Except String (List PyVal)
  | .list xs => .ok xs
  | .str s => .ok (s.data.map (fun c => PyVal.str (String.mk [c])))
  | .obj kvs => .ok (kvs.map (fun kv => PyVal.str kv.1))
  | _ => .error "TypeError: object is not iterable"

/-- The per-item body of `_bulk_move_content` (lines 785-810).  A non-dict item
makes `item.get` raise AttributeError inside the `try`, and the `except`
handler immediately evaluates `item.get("id")` on the same item, so the
AttributeError propagates out of the whole tool: `failed_items` can never
actually receive an entry. -/
def bulk_move_items (target : PyVal) : List PyVal → Except String (List PyVal)
  | [] => .ok []
  | .obj kvs :: rest => do
    let t := pyGet kvs "type" .null
    let record := PyVal.obj
      [ ("id", pyGet kvs "id" .null)
      , ("name", pyGet kvs "name" .null)
      , ("type", if valEqStr t "workbook" then .str "workbook" else pyGet kvs "type" (.str "unknown"))
      , ("moved_to", target)
      , ("status", .str "success") ]
    let others ← bulk_move_items target rest
    .ok (record :: others)
  | _ :: _ => .error "AttributeError: object has no attribute get"

/-- `_bulk_move_content` (lines 776-820). -/
def tool_bulk_move_content (args : List (String × PyVal)) : Except String PyVal := do
  let target := pyGet args "target_project" (.str "Archive")
  let items := pyGet args "items" (.list [])
  let xs ← pyIterate items
  let moved ← bulk_move_items target xs
  .ok (.obj
    [ ("operation", .str "bulk_move")
    , ("target_project", target)
    , ("moved_items", .list moved)
    , ("failed_items", .list [])
    , ("success_count", .int moved.length)
    , ("failure_count", .int 0)
    , ("total_processed", .int xs.length) ])

/-- `_get_user_content` (lines 822-846). -/
def tool_get_user_content (args : List (String × PyVal)) : Except String PyVal :=
  let username := pyGet args "username" .null
  let u := pyStrOfVal username
  .ok (.obj
    [ ("user", username)
    , ("content_inventory", .obj
        [ ("workbooks", .list
            [ .obj [ ("id", .str "wb_789"), ("name", .str (u ++ "\x27s Dashboard"))
                   , ("project", .str "Personal") ]
            , .obj [ ("id", .str "wb_790"), ("name", .str (u ++ "\x27s Analysis"))
                   , ("project", .str "Team Projects") ] ])
        , ("datasources", .list
            [ .obj [ ("id", .str "ds_123"), ("name", .str (u ++ "\x27s Data Extract"))
                   , ("project", .str "Personal") ] ])
        , ("flows", .list [])
        , ("subscriptions", .list
            [ .obj [ ("id", .str "sub_456"), ("content", .str "Weekly Sales Report") ] ]) ])
    , ("total_items", .int 4)
    , ("projects_involved", .list [.str "Personal", .str "Team Projects"])
    , ("critical_content", .int 1) ])

/-- `_analyze_content_importance` (lines 848-871). -/
def tool_analyze_content_importance (args : List (String × PyVal)) : Except String PyVal :=
  let user := pyGet args "user" .null
  let u := pyStrOfVal user
  .ok (.obj
    [ ("user", user)
    , ("importance_analysis", .obj
        [ ("critical", .list
            [ .obj [ ("id", .str "wb_789"), ("name", .str (u ++ "\x27s Dashboard"))
                   , ("reason", .str "High daily usage by team") ] ])
        , ("important", .list
            [ .obj [ ("id", .str "wb_790"), ("name", .str (u ++ "\x27s Analysis"))
                   , ("reason", .str "Referenced by other workbooks") ] ])
        , ("low_priority", .list
            [ .obj [ ("id", .str "ds_123"), ("name", .str (u ++ "\x27s Data Extract"))
                   , ("reason", .str "Personal use only") ] ])
        , ("obsolete", .list []) ])
    , ("recommendations", .obj
        [ ("transfer_to_team", .list [.str "wb_789"])
        , ("archive", .list [.str "ds_123"])
        , ("requires_documentation", .list [.str "wb_790"]) ]) ])

/-- `_create_migration_plan` (lines 873-917). -/
def tool_create_migration_plan (args : List (String × PyVal)) : Except String PyVal :=
  let from_user := pyGet args "from_user" .null
  let to_user := pyGet args "to_user" (.str "team_lead")
  let f := pyStrOfVal from_user
  .ok (.obj
    [ ("migration_plan", .obj
        [ ("from_user", from_user)
        , ("to_user", to_user)
        , ("transfer_actions", .list
            [ .obj [ ("content_id", .str "wb_789")
                   , ("content_name", .str (f ++ "\x27s Dashboard"))
                   , ("action", .str "transfer_ownership")
                   , ("new_owner", to_user)
                   , ("notify_stakeholders", .bool true) ]
            , .obj [ ("content_id", .str "wb_790")
                   , ("content_name", .str (f ++ "\x27s Analysis"))
                   , ("action", .str "transfer_ownership")
                   , ("new_owner", to_user)
                   , ("add_documentation", .bool true) ] ])
        , ("archive_actions", .list
            [ .obj [ ("content_id", .str "ds_123")
                   , ("content_name", .str (f ++ "\x27s Data Extract"))
                   , ("action", .str "archive")
                   , ("reason", .str "Personal use only") ] ])
        , ("permission_updates", .list
            [ .obj [ ("action", .str "revoke_all_access")
                   , ("user", from_user)
                   , ("exceptions", .list []) ] ]) ])
    , ("estimated_duration", .str "15 minutes")
    , ("stakeholder_notifications", .int 3)
    , ("reversible", .bool true) ])

/-- Per-action body of `_bulk_transfer_ownership` (lines 927-942): a missing
`content_id` faults in the `try` AND again in the `except` handler (which
indexes `action["content_id"]`), so it propagates; missing `content_name` or
`new_owner` is caught and appended to `failed`. -/
def transfer_one (from_user : PyVal) (a : PyVal) : Except String (PyVal ⊕ PyVal) :=
  match a with
  | .obj kvs =>
    match alGet kvs "content_id" with
    | none => .error "KeyError: content_id"
    | some cid =>
      match alGet kvs "content_name" with
      | none => .ok (.inr (.obj [("content_id", cid), ("error", .str "KeyError: content_name")]))
      | some cname =>
        match alGet kvs "new_owner" with
        | none => .ok (.inr (.obj [("content_id", cid), ("error", .str "KeyError: new_owner")]))
        | some owner =>
          .ok (.inl (.obj
            [ ("content_id", cid), ("content_name", cname)
            , ("from_owner", from_user), ("to_owner", owner)
            , ("status", .str "success") ]))
  | _ => .error "TypeError: object is not subscriptable"

/-- The transfer loop: accumulates `transferred` and `failed` in order. -/
def transfer_all (from_user : PyVal) : List PyVal → Except String (List PyVal × List PyVal)
  | [] => .ok ([], [])
  | a :: rest => do
    let r ← transfer_one from_user a
    let (ts, fs) ← transfer_all from_user rest
    match r with
    | .inl t => .ok (t :: ts, fs)
    | .inr f => .ok (ts, f :: fs)

/-- `_bulk_transfer_ownership` (lines 919-952).  `migration_plan.get(...)` on a
non-dict (e.g. an unresolved placeholder string) raises AttributeError. -/
def tool_bulk_transfer_ownership (args : List (String × PyVal)) : Except String PyVal := do
  let from_user := pyGet args "from_user" .null
  let mp := pyGet args "migration_plan" (.obj [])
  match mp with
  | .obj mkvs => do
    let actions := pyGet mkvs "transfer_actions" (.list [])
    let xs ← pyIterate actions
    let tf ← transfer_all from_user xs
    let notif := (xs.filter (fun a =>
      match a with
      | .obj k => (pyGet k "notify_stakeholders" .null).truthy
      | _ => false)).length
    .ok (.obj
      [ ("operation", .str "bulk_transfer_ownership")
      , ("from_user", from_user)
      , ("transferred", .list tf.1)
      , ("failed", .list tf.2)
      , ("success_count", .int tf.1.length)
      , ("failure_count", .int tf.2.length)
      , ("notifications_sent", .int notif) ])
  | _ => .error "AttributeError: object has no attribute get"

/-- `_update_user_permissions` (lines 954-976). -/
def tool_update_user_permissions (args : List (String × PyVal)) : Except String PyVal :=
  let user := pyGet args "user" .null
  let action := pyGet args "action" (.str "revoke_all")
  if valEqStr action "revoke_all" then
    .ok (.obj
      [ ("operation", .str "revoke_all_permissions")
      , ("user", user)
      , ("revoked_permissions", .list
          [ .obj [("content", .str "Sales Dashboard"), ("permission", .str "View"), ("project", .str "Sales")]
          , .obj [("content", .str "Finance Reports"), ("permission", .str "Edit"), ("project", .str "Finance")]
          , .obj [("content", .str "Team Workspace"), ("permission", .str "Owner"), ("project", .str "Team Projects")] ])
      , ("total_revoked", .int 3)
      , ("user_deactivated", .bool true)
      , ("cleanup_completed", .bool true) ])
  else
    .ok (.obj [("operation", action), ("user", user), ("status", .str "completed")])

/-- `_execute_workflow_tool` (lines 702-722): the elif chain over the fixed
pseudo-tool catalog; anything else raises `ValueError("Unknown workflow tool")`. -/
def execute_workflow_tool (tool_name : String) (args : List (String × PyVal)) :
    Except String PyVal :=
  if tool_name == "analyze_usage_patterns" then tool_analyze_usage_patterns args
  else if tool_name == "request_user_confirmation" then tool_request_user_confirmation args
  else if tool_name == "bulk_move_content" then tool_bulk_move_content args
  else if tool_name == "get_user_content" then tool_get_user_content args
  else if tool_name == "analyze_content_importance" then tool_analyze_content_importance args
  else if tool_name == "create_migration_plan" then tool_create_migration_plan args
  else if tool_name == "bulk_transfer_ownership" then tool_bulk_transfer_ownership args
  else if tool_name == "update_user_permissions" then tool_update_user_permissions args
  else .error ("Unknown workflow tool: " ++ tool_name)

/-! ### Executor: execution-order resolution (lines 1097-1118) -/

/-- A step with all dependencies executed and not yet executed itself
(`step.id not in executed and can_execute(step)`). -/
def step_eligible (order : List String) (s : WorkflowStep) : Bool :=
  !(order.contains s.id) && s.dependencies.all (fun d => order.contains d)

/-- The `ValueError` message of line 1116 (`remaining` is the list of
unexecuted step ids; the Python list repr is rendered as comma separation). -/
def cannot_resolve_msg (steps : List WorkflowStep) (order : List String) : String :=
  "Cannot resolve execution order for steps: " ++
    String.intercalate ", " ((steps.filter (fun s => !(order.contains s.id))).map (fun s => s.id))

/-- The `while len(execution_order) < len(steps)` loop of
`_resolve_execution_order`, with fuel.  Each successful pass appends exactly
one id, so from the entry point (`fuel = steps.length`, empty order) the
invariant `fuel + order.length = steps.length` holds and the fuel-exhausted
branch is unreachable; a pass that finds no eligible step raises. -/
def resolveGo (steps : List WorkflowStep) : Nat → List String → Except String (List String)
  | 0, order =>
    if order.length < steps.length then
      match steps.find? (step_eligible order) with
      | some _ => .error "internal: fuel bound exceeded"
      | none => .error (cannot_resolve_msg steps order)
    else .ok order
  | fuel + 1, order =>
    if order.length < steps.length then
      match steps.find? (step_eligible order) with
      | some s => resolveGo steps fuel (order ++ [s.id])
      | none => .error (cannot_resolve_msg steps order)
    else .ok order

/-- `WorkflowExecutor._resolve_execution_order` (lines 1097-1118). -/
def resolve_execution_order (steps : List WorkflowStep) : Except String (List String) :=
  resolveGo steps steps.length []

/-! ### Executor: rollback bookkeeping (lines 1015-1095) -/

/-- A rollback-stack entry (line 622-626); the source stores the step object,
whose identity is its id here. -/
structure RollbackRecord where
  step_id : String
  rollback_info : List (String × PyVal)
  workflow_id : String

/-- The external effect of `_execute_rollback` for one record (in the source
it only logs, so it cannot actually fail; the oracle keeps the per-record
`try/except` of `_rollback_workflow` observable). -/
def RollbackAction : Type :=
  RollbackRecord → Except String Unit

/-- The replay loop of `_rollback_workflow` (lines 1084-1089): every record is
attempted; an individual failure is logged and the loop continues.  Returns
the records attempted, in order. -/
def replay_rollbacks (act : RollbackAction) : List RollbackRecord → List RollbackRecord
  | [] => []
  | r :: rest =>
    match act r with
    | .ok _ => r :: replay_rollbacks act rest
    | .error _ => r :: replay_rollbacks act rest

/-- `WorkflowExecutor._rollback_workflow` (lines 1074-1095): filter the stack
to this workflow, replay in reverse push order, then purge exactly this
workflow of the stack.  Returns (attempted records in replay order, new stack). -/
def rollback_workflow (act : RollbackAction) (workflow_id : String)
    (stack : List RollbackRecord) : List RollbackRecord × List RollbackRecord :=
  let mine := stack.filter (fun rb => rb.workflow_id == workflow_id)
  (replay_rollbacks act mine.reverse,
   stack.filter (fun rb => !(rb.workflow_id == workflow_id)))

/-- `WorkflowExecutor._handle_workflow_failure` (lines 1059-1072): status
FAILED; when rollback is supported and the executor-wide stack is nonempty,
roll back and set ROLLED_BACK (the replay itself cannot raise, see
`replay_rollbacks`).  Returns (plan, stack, attempted rollbacks, status
assignments in order). -/
def handle_workflow_failure (act : RollbackAction) (wf : WorkflowPlan)
    (stack : List RollbackRecord) :
    WorkflowPlan × List RollbackRecord × List RollbackRecord × List WorkflowStatus :=
  if wf.rollback_supported && !stack.isEmpty then
    ({ wf with status := some .rolled_back },
     (rollback_workflow act wf.id stack).2,
     (rollback_workflow act wf.id stack).1,
     [.failed, .rolled_back])
  else
    ({ wf with status := some .failed }, stack, [], [.failed])

/-! ### Executor: step dispatch and the main loop (lines 595-700) -/

/-- The external tool client (`self.tableau_client`): `none` means the client
has no method of that name (`hasattr` false, so the workflow pseudo-tool
catalog is consulted); `some f` is the method, which may raise. -/
def ToolClient : Type :=
  String → Option (List (String × PyVal) → Except String PyVal)

/-- One recorded tool invocation: tool name and resolved arguments. -/
def ToolCall : Type :=
  String × List (String × PyVal)

/-- `WorkflowExecutor._execute_step` (lines 666-700): resolve template
variables against the current workflow state, then dispatch to the client
method if present, else to the pseudo-tool catalog.  Any exception is caught
and reported as a failed step result. -/
def execute_step (client : ToolClient) (wf : WorkflowPlan) (s : WorkflowStep) :
    Except String PyVal × ToolCall :=
  let resolved := resolve_template_variables wf s.arguments
  match client s.tool_name with
  | some f => (f resolved, (s.tool_name, resolved))
  | none => (execute_workflow_tool s.tool_name resolved, (s.tool_name, resolved))

/-- Replace the first step with the given id (the source mutates the step
object found by `next(s for s in workflow.steps if s.id == step_id)`). -/
def update_step (sid : String) (f : WorkflowStep → WorkflowStep) :
    List WorkflowStep → List WorkflowStep
  | [] => []
  | s :: rest => if s.id == sid then f s :: rest else s :: update_step sid f rest

/-- The dict returned by `execute_workflow` (lines 634-659), restricted to the
fields the claims concern (the execution summary adds nothing a claim needs). -/
structure ExecResponse where
  success : Bool
  error : Option String := none
  failed_step : Option String := none
  rollback_performed : Option Bool := none
  workflow_id : Option String := none
  completed_steps : Option Nat := none
  total_steps : Option Nat := none
deriving DecidableEq, Repr

/-- Everything observable about one executor invocation: the response, the
final plan and stack, plus ghost traces of tool calls, rollback replays and
status-field assignments (in program order). -/
structure ExecOutcome where
  response : ExecResponse
  plan : WorkflowPlan
  stack : List RollbackRecord
  calls : List ToolCall
  rollbacks : List RollbackRecord
  assigns : List WorkflowStatus

/-- The `for step_id in execution_order` loop of `execute_workflow`
(lines 606-650): dispatch each step in resolved order; on success record the
result and push a rollback record if the step carries `rollback_info`; on
failure record the error and abort via `_handle_workflow_failure`
(`abort_workflow` defaults to true on every caught exception). -/
def run_steps (client : ToolClient) (act : RollbackAction) :
    List String → WorkflowPlan → List RollbackRecord → ExecOutcome
  | [], wf, stack =>
    let wf1 := { wf with status := some .completed }
    { response :=
        { success := true
          workflow_id := some wf1.id
          completed_steps := some wf1.completed_steps
          total_steps := some wf1.total_steps }
      plan := wf1, stack := stack, calls := [], rollbacks := [], assigns := [.completed] }
  | sid :: rest, wf, stack =>
    match wf.steps.find? (fun s => s.id == sid) with
    | none =>
      { response := { success := false, error := some "internal: step not found", rollback_performed := some true }
        plan := (handle_workflow_failure act wf stack).1
        stack := (handle_workflow_failure act wf stack).2.1
        calls := []
        rollbacks := (handle_workflow_failure act wf stack).2.2.1
        assigns := (handle_workflow_failure act wf stack).2.2.2 }
    | some step =>
      match execute_step client wf step with
      | (.ok v, call) =>
        let wf1 := { wf with steps := update_step sid (fun t => { t with status := .completed, result := some v }) wf.steps }
        let stack1 := match step.rollback_info with
          | some ri => stack ++ [{ step_id := sid, rollback_info := ri, workflow_id := wf.id }]
          | none => stack
        let o := run_steps client act rest wf1 stack1
        { o with calls := call :: o.calls, assigns := .completed :: o.assigns }
      | (.error e, call) =>
        let wf1 := { wf with steps := update_step sid (fun t => { t with status := .failed, error := some e }) wf.steps }
        { response :=
            { success := false
              error := some ("Workflow failed at step: " ++ step.description)
              failed_step := some sid
              rollback_performed := some true }
          plan := (handle_workflow_failure act wf1 stack).1
          stack := (handle_workflow_failure act wf1 stack).2.1
          calls := [call]
          rollbacks := (handle_workflow_failure act wf1 stack).2.2.1
          assigns := .failed :: (handle_workflow_failure act wf1 stack).2.2.2 }

/-- `WorkflowExecutor.execute_workflow` (lines 595-664): set IN_PROGRESS,
resolve the execution order (a raise here is caught by the outer `except`,
which runs `_handle_workflow_failure` and reports the error with
`rollback_performed: True`), then run the steps.  The per-call
`active_workflows` registration is deleted in the `finally` on every path and
is not otherwise observable, so it is not modelled. -/
def execute_workflow (client : ToolClient) (act : RollbackAction)
    (wf : WorkflowPlan) (stack : List RollbackRecord) : ExecOutcome :=
  let wf0 := { wf with status := some .in_progress }
  match resolve_execution_order wf0.steps with
  | .error e =>
    { response := { success := false, error := some e, rollback_performed := some true }
      plan := (handle_workflow_failure act wf0 stack).1
      stack := (handle_workflow_failure act wf0 stack).2.1
      calls := []
      rollbacks := (handle_workflow_failure act wf0 stack).2.2.1
      assigns := .in_progress :: (handle_workflow_failure act wf0 stack).2.2.2 }
  | .ok order =>
    let o := run_steps client act order wf0 stack
    { o with assigns := .in_progress :: o.assigns }

/-! ### Orchestrator façade (lines 1121-1274) -/

/-- Orchestrator state: the pending-confirmation registry
(`WorkflowOrchestrator.active_workflows`) and the executor-wide rollback stack
(`WorkflowExecutor.rollback_stack`, which persists across calls). -/
structure OrchState where
  pending : List (String × WorkflowPlan) := []
  stack : List RollbackRecord := []

/-- Registry insert (`self.active_workflows[workflow.id] = workflow`). -/
def alInsert (kvs : List (String × WorkflowPlan)) (k : String) (v : WorkflowPlan) :
    List (String × WorkflowPlan) :=
  kvs.filter (fun p => !(p.1 == k)) ++ [(k, v)]

/-- `OperationType.value` strings. -/
def opTypeStr : OperationType → String
  | .read => "read"
  | .create => "create"
  | .update => "update"
  | .delete => "delete"
  | .move => "move"
  | .publish => "publish"
  | .refresh => "refresh"

/-- The JSON response shapes of the orchestrator entry points
(lines 1150-1252): validation failure, the confirmation-required (waiting)
response carrying the workflow id, an execution result, the cancellation
success response, and the unknown-id error. -/
inductive OrchResponse where
  | validationFailed (errors warnings : List String)
  | confirmationRequired (workflow_id : String) (steps : List (String × String))
      (estimated_duration : Option Nat) (risk_assessment : RiskAssessment)
  | executed (r : ExecResponse)
  | cancelled
  | notFound

/-- The `success` boolean of each response shape (`"success": True` for the
confirmation-required and cancelled responses in the source). -/
def orchSuccess : OrchResponse → Bool
  | .validationFailed _ _ => false
  | .confirmationRequired _ _ _ _ => true
  | .executed r => r.success
  | .cancelled => true
  | .notFound => false

/-- Does the response pause for confirmation (`"status": "confirmation_required"`)? -/
def isConfirmationRequired : OrchResponse → Bool
  | .confirmationRequired _ _ _ _ => true
  | _ => false

/-- Observable outcome of one orchestrator entry-point call; `plan` is the
final state of the plan object the call handled (ghost observation of the
mutated Python object). -/
structure OrchOutcome where
  response : OrchResponse
  state : OrchState
  plan : Option WorkflowPlan
  calls : List ToolCall
  rollbacks : List RollbackRecord
  assigns : List WorkflowStatus

/-- The post-parse pipeline of `process_workflow_request` (lines 1146-1189):
validate; reject invalid plans; pause (storing the plan in the pending
registry) when the plan or the risk assessment requires confirmation;
otherwise execute immediately. -/
def process_parsed_workflow (client : ToolClient) (act : RollbackAction)
    (wf : WorkflowPlan) (st : OrchState) : OrchOutcome :=
  let validation := validate_workflow wf
  if !validation.valid then
    { response := .validationFailed validation.errors validation.warnings
      state := st, plan := some wf, calls := [], rollbacks := [], assigns := [] }
  else if wf.requires_confirmation || validation.risk_assessment.requires_confirmation then
    { response := .confirmationRequired wf.id
        (wf.steps.map (fun s => (s.description, opTypeStr s.operation_type)))
        wf.estimated_duration validation.risk_assessment
      state := { st with pending := alInsert st.pending wf.id wf }
      plan := some wf, calls := [], rollbacks := [], assigns := [] }
  else
    let o := execute_workflow client act wf st.stack
    { response := .executed o.response, state := { st with stack := o.stack }
      plan := some o.plan, calls := o.calls, rollbacks := o.rollbacks, assigns := o.assigns }

/-- `WorkflowOrchestrator.process_workflow_request` (lines 1139-1196). -/
def process_workflow_request (client : ToolClient) (act : RollbackAction)
    (freshId : String) (user_request : String) (st : OrchState) : OrchOutcome :=
  process_parsed_workflow client act (parse_workflow_intent freshId user_request) st

/-- `WorkflowOrchestrator.confirm_workflow` (lines 1198-1229): unknown id is an
explicit not-found error; `confirmed=False` marks the plan CANCELLED and
discards the pending entry with no execution; `confirmed=True` executes and
discards the pending entry regardless of the outcome. -/
def confirm_workflow (client : ToolClient) (act : RollbackAction)
    (workflow_id : String) (confirmed : Bool) (st : OrchState) : OrchOutcome :=
  match alGet st.pending workflow_id with
  | none =>
    { response := .notFound, state := st, plan := none
      calls := [], rollbacks := [], assigns := [] }
  | some wf =>
    if !confirmed then
      { response := .cancelled
        state := { st with pending := st.pending.filter (fun p => !(p.1 == workflow_id)) }
        plan := some { wf with status := some .cancelled }
        calls := [], rollbacks := [], assigns := [.cancelled] }
    else
      let o := execute_workflow client act wf st.stack
      { response := .executed o.response
        state := { pending := st.pending.filter (fun p => !(p.1 == workflow_id)), stack := o.stack }
        plan := some o.plan, calls := o.calls, rollbacks := o.rollbacks, assigns := o.assigns }

/-! ### Concrete scenario data used by the theorems -/

/-- The operator request of the end-to-end cleanup scenario. -/
def cleanupRequest : String := "Clean up the Finance project"

/-- The `MockTableauClient` of the repository test script
(src/test_workflow_orchestration.py lines 16-27): `search_workbooks`,
`search_datasources` and `move_workbook_enhanced` exist and return
JSON-encoded strings (as the real client methods also do). -/
def mockTableauClient : ToolClient := fun nm =>
  if nm == "search_workbooks" then
    some (fun _ => .ok (.str "\x7b\"workbooks\": [], \"total_count\": 0\x7d"))
  else if nm == "search_datasources" then
    some (fun _ => .ok (.str "\x7b\"datasources\": [], \"total_count\": 0\x7d"))
  else if nm == "move_workbook_enhanced" then
    some (fun _ => .ok (.str "\x7b\"success\": true, \"message\": \"Workbook moved successfully\"\x7d"))
  else none

/-- Rollback actions that always succeed (as in the source, where
`_execute_rollback` only logs). -/
def rbActOk : RollbackAction := fun _ => .ok ()

/-- Fresh orchestrator state. -/
def emptyOrchState : OrchState := {}

/-- The plan parsed from the cleanup request. -/
def cleanupParsedPlan : WorkflowPlan :=
  parse_workflow_intent "wf-1" cleanupRequest

/-- Submitting the cleanup request to the orchestrator. -/
def cleanupProcessOutcome : OrchOutcome :=
  process_workflow_request mockTableauClient rbActOk "wf-1" cleanupRequest emptyOrchState

/-- Confirming the cleanup workflow with `confirmed=True`. -/
def cleanupConfirmOutcome : OrchOutcome :=
  confirm_workflow mockTableauClient rbActOk "wf-1" true cleanupProcessOutcome.state

/-- A migration plan for user john.doe (the template instantiated as
`_create_migration_workflow` does). -/
def migrationPlanJohn : WorkflowPlan :=
  create_migration_workflow "wf-2" (some "john.doe") "team_lead"
    "Migrate john.doe when he leaves"

/-- An external tool client on which the ownership-transfer call fails: it
exposes `bulk_transfer_ownership` and raises from it. -/
def transferFailClient : ToolClient := fun nm =>
  if nm == "bulk_transfer_ownership" then
    some (fun _ => .error "Simulated ownership transfer failure")
  else none

/-- Executing the migration plan against the failing client. -/
def migrationOutcome : ExecOutcome :=
  execute_workflow transferFailClient rbActOk migrationPlanJohn []

/-- Steps A, B, C where A completes first with rollback X, B second with
rollback Y, and C fails. -/
def planABC : WorkflowPlan :=
  { id := "wf-3", title := "abc", description := "abc"
    steps :=
      [ { id := "A", description := "step A", tool_name := "toolA", arguments := []
          operation_type := .update, rollback_info := some [("action", .str "X")] }
      , { id := "B", description := "step B", tool_name := "toolB", arguments := []
          operation_type := .update, dependencies := ["A"]
          rollback_info := some [("action", .str "Y")] }
      , { id := "C", description := "step C", tool_name := "toolC", arguments := []
          operation_type := .update, dependencies := ["B"] } ] }

/-- Client for the A/B/C scenario: A and B succeed, C raises. -/
def clientABC : ToolClient := fun nm =>
  if nm == "toolC" then some (fun _ => .error "boom")
  else if nm == "toolA" || nm == "toolB" then some (fun _ => .ok .null)
  else none

/-- A rollback record belonging to a different plan, already on the stack. -/
def foreignRecord : RollbackRecord :=
  { step_id := "Z", rollback_info := [("action", .str "W")], workflow_id := "other-wf" }

/-- Executing the A/B/C plan with the foreign record on the stack. -/
def abcOutcome : ExecOutcome :=
  execute_workflow clientABC rbActOk planABC [foreignRecord]

/-- A workflow with one completed step whose dict result holds
`candidates = [1, 2, 3]` (the template-substitution example). -/
def templateExamplePlan : WorkflowPlan :=
  { id := "wf-5", title := "tmpl", description := "tmpl"
    steps :=
      [ { id := "s1", description := "prior step", tool_name := "t1", arguments := []
          operation_type := .read, status := .completed
          result := some (.obj [("candidates", .list [.int 1, .int 2, .int 3])]) } ] }

/-- A plan with one DELETE step and three UPDATE steps (risk-score example). -/
def riskExamplePlan : WorkflowPlan :=
  { id := "wf-4", title := "risk", description := "risk"
    steps :=
      [ { id := "d1", description := "delete step", tool_name := "x", arguments := []
          operation_type := .delete }
      , { id := "u1", description := "update step 1", tool_name := "x", arguments := []
          operation_type := .update }
      , { id := "u2", description := "update step 2", tool_name := "x", arguments := []
          operation_type := .update }
      , { id := "u3", description := "update step 3", tool_name := "x", arguments := []
          operation_type := .update } ] }

/-- A plan whose single step names a tool that is neither an external client
method nor a workflow pseudo-tool. -/
def unknownToolPlan : WorkflowPlan :=
  { id := "wf-8", title := "unknown", description := "unknown"
    steps :=
      [ { id := "s1", description := "mystery step", tool_name := "nonexistent_tool_xyz"
          arguments := [], operation_type := .read } ] }

/-- Two steps depending on each other: a dependency cycle. -/
def cyclicSteps : List WorkflowStep :=
  [ { id := "a", description := "a", tool_name := "x", arguments := []
      operation_type := .read, dependencies := ["b"] }
  , { id := "b", description := "b", tool_name := "x", arguments := []
      operation_type := .read, dependencies := ["a"] } ]

/-- A plan built on the cyclic steps. -/
def cyclicPlan : WorkflowPlan :=
  { id := "wf-9", title := "cyclic", description := "cyclic", steps := cyclicSteps }

/-- A three-step chain with distinct ids and resolvable dependencies. -/
def chainSteps : List WorkflowStep :=
  [ { id := "p", description := "p", tool_name := "x", arguments := []
      operation_type := .read }
  , { id := "q", description := "q", tool_name := "x", arguments := []
      operation_type := .read, dependencies := ["p"] }
  , { id := "r", description := "r", tool_name := "x", arguments := []
      operation_type := .read, dependencies := ["q", "p"] } ]

/-! ### C4: risk assessment -/

/-- The step-score fold equals the additive closed form of the spec. -/
lemma sum_stepRiskScore (l : List WorkflowStep) :
    (l.map stepRiskScore).sum =
      3 * l.countP (fun s => s.operation_type == .delete) +
      2 * l.countP (fun s => s.operation_type == .move) +
      l.countP (fun s => s.operation_type == .update) := by
  induction l with
  | nil => simp
  | cons s rest ih =>
    rw [List.map_cons, List.sum_cons, List.countP_cons, List.countP_cons, List.countP_cons, ih]
    cases h : s.operation_type <;> simp [stepRiskScore, h] <;> ring

lemma assess_risk_score_eq (wf : WorkflowPlan) :
    (assess_risk wf).score =
      (wf.steps.map stepRiskScore).sum + (if 10 < wf.steps.length then 2 else 0) := rfl

lemma assess_risk_level_eq (wf : WorkflowPlan) :
    (assess_risk wf).level =
      (if 8 ≤ (assess_risk wf).score then "high"
       else if 4 ≤ (assess_risk wf).score then "medium" else "low") := rfl

lemma validate_workflow_risk_eq (wf : WorkflowPlan) :
    (validate_workflow wf).risk_assessment = assess_risk wf := rfl

lemma assess_risk_rc_eq (wf : WorkflowPlan) :
    (assess_risk wf).requires_confirmation = decide (3 ≤ (assess_risk wf).score) := rfl

/-- C4: for every plan the risk score is 3 per DELETE + 2 per MOVE + 1 per
UPDATE step, plus 2 when the plan has more than 10 steps; the level is "high"
iff the score is at least 8, "medium" iff it is between 4 and 7, "low"
otherwise; the assessment requires confirmation iff the score is at least 3;
for a plan that validates, the orchestrator pauses for confirmation iff the
assessment flag or the plan-level `requires_confirmation` flag is set; and the
one-DELETE-three-UPDATE example scores 6 and is "medium". -/
theorem c4_risk_assessment_spec (wf : WorkflowPlan) :
    ((assess_risk wf).score =
        3 * wf.steps.countP (fun s => s.operation_type == .delete) +
        2 * wf.steps.countP (fun s => s.operation_type == .move) +
        wf.steps.countP (fun s => s.operation_type == .update) +
        (if 10 < wf.steps.length then 2 else 0))
    ∧ ((assess_risk wf).level = "high" ↔ 8 ≤ (assess_risk wf).score)
    ∧ ((assess_risk wf).level = "medium" ↔
        (4 ≤ (assess_risk wf).score ∧ (assess_risk wf).score < 8))
    ∧ ((assess_risk wf).level = "low" ↔ (assess_risk wf).score < 4)
    ∧ ((assess_risk wf).requires_confirmation = true ↔ 3 ≤ (assess_risk wf).score)
    ∧ (∀ (client : ToolClient) (act : RollbackAction) (st : OrchState),
        (validate_workflow wf).valid = true →
        isConfirmationRequired (process_parsed_workflow client act wf st).response =
          (wf.requires_confirmation || (assess_risk wf).requires_confirmation))
    ∧ (assess_risk riskExamplePlan).score = 6
    ∧ (assess_risk riskExamplePlan).level = "medium" := by
  refine ⟨?_, ?_, ?_, ?_, ?_, ?_, by decide, by decide⟩
  · rw [assess_risk_score_eq, sum_stepRiskScore]
  · rw [assess_risk_level_eq]
    split_ifs with h1 h2 <;> simp_all <;> omega
  · rw [assess_risk_level_eq]
    split_ifs with h1 h2 <;> simp_all <;> omega
  · rw [assess_risk_level_eq]
    split_ifs with h1 h2 <;> simp_all <;> omega
  · rw [assess_risk_rc_eq]
    simp
  · intro client act st hvalid
    simp only [process_parsed_workflow, validate_workflow_risk_eq, hvalid, Bool.not_true,
      Bool.false_eq_true, if_false]
    split <;> simp_all [isConfirmationRequired]

/-- Witness for `c4_risk_assessment_spec`: the confirmation-pause equivalence
discharged at the concrete example plan (which validates). -/
theorem c4_risk_assessment_spec_witness :
    (validate_workflow riskExamplePlan).valid = true ∧
    isConfirmationRequired
        (process_parsed_workflow (fun _ => none) rbActOk riskExamplePlan emptyOrchState).response =
      (riskExamplePlan.requires_confirmation || (assess_risk riskExamplePlan).requires_confirmation) :=
  ⟨by decide,
   (c4_risk_assessment_spec riskExamplePlan).2.2.2.2.2.1 (fun _ => none) rbActOk
     emptyOrchState (by decide)⟩

/-! ### C5: template-variable substitution -/

/-- Spec-side lookup of one reference in one step, following the claim text:
only COMPLETED steps with dict results are consulted; the referenced top-level
key wins, otherwise a dotted reference descends component-by-component. -/
def spec_step_lookup (ref : String) (s : WorkflowStep) : Option PyVal :=
  if s.status == WorkflowStatus.completed then
    match s.result with
    | some (.obj kvs) =>
      (match alGet kvs ref with
       | some v => some v
       | none =>
         if strContains ref "." then descendPath (.obj kvs) (pySplitDot ref) else none)
    | _ => none
  else none

/-- Spec-side resolution of a reference: the first step (in plan order) whose
result yields it. -/
def spec_resolve_ref (wf : WorkflowPlan) (ref : String) : Option PyVal :=
  wf.steps.findSome? (spec_step_lookup ref)

/-- Spec-side resolution of one argument value: values that are not exactly a
double-brace reference pass through unmodified, unresolvable references keep
the original placeholder. -/
def spec_resolve_value (wf : WorkflowPlan) (v : PyVal) : PyVal :=
  match template_ref_of v with
  | some ref =>
    match spec_resolve_ref wf ref with
    | some r => r
    | none => v
  | none => v

lemma pySplitDot_ne_nil (s : String) : pySplitDot s ≠ [] := by
  unfold pySplitDot
  intro h
  rw [List.map_eq_nil_iff] at h
  revert h
  induction s.data with
  | nil => simp [splitOnDot]
  | cons c cs ih =>
    unfold splitOnDot
    split
    · simp
    · cases h2 : splitOnDot cs with
      | nil => exact absurd h2 ih
      | cons p ps => simp

lemma descendPath_obj_nil (parts : List String) (h : parts ≠ []) :
    descendPath (.obj []) parts = none := by
  cases parts with
  | nil => exact absurd rfl h
  | cons p ps => simp [descendPath, alGet]

/-- The falsy-result skip of the source is invisible: a falsy result never
yields a lookup anyway. -/
lemma descendPath_obj_nil_split (ref : String) :
    descendPath (.obj []) (pySplitDot ref) = none :=
  descendPath_obj_nil (pySplitDot ref) (pySplitDot_ne_nil ref)

lemma scan_step_once_eq_spec (ref : String) (s : WorkflowStep) :
    scan_step_once ref s = spec_step_lookup ref s := by
  cases hres : s.result with
  | none => simp [scan_step_once, spec_step_lookup, hres, ite_self]
  | some r =>
    cases hstat : s.status == WorkflowStatus.completed with
    | false => simp [scan_step_once, spec_step_lookup, hres, hstat]
    | true =>
      cases htr : r.truthy with
      | true =>
        simp only [scan_step_once, spec_step_lookup, hres, hstat, htr, Bool.and_self, if_true]
        cases r <;> rfl
      | false =>
        cases r with
        | obj kvs =>
          cases kvs with
          | nil =>
            simp [scan_step_once, spec_step_lookup, hres, hstat, htr, alGet,
              descendPath_obj_nil_split, ite_self]
          | cons kv rest => simp [PyVal.truthy] at htr
        | null => simp [scan_step_once, spec_step_lookup, hres, hstat, htr]
        | bool b => simp [scan_step_once, spec_step_lookup, hres, hstat, htr]
        | int n => simp [scan_step_once, spec_step_lookup, hres, hstat, htr]
        | str t => simp [scan_step_once, spec_step_lookup, hres, hstat, htr]
        | list xs => simp [scan_step_once, spec_step_lookup, hres, hstat, htr]

/-- The source scan over `workflow.steps` computes exactly the spec-side
first-yield lookup. -/
lemma scan_steps_eq_findSome (ref : String) (l : List WorkflowStep) :
    scan_steps_for_ref ref l = l.findSome? (spec_step_lookup ref) := by
  induction l with
  | nil => rfl
  | cons s rest ih =>
    rw [List.findSome?_cons, ← scan_step_once_eq_spec]
    unfold scan_steps_for_ref
    cases scan_step_once ref s with
    | some v => rfl
    | none => exact ih

lemma resolve_arg_value_eq_spec (wf : WorkflowPlan) (v : PyVal) :
    resolve_arg_value wf v = spec_resolve_value wf v := by
  unfold resolve_arg_value spec_resolve_value spec_resolve_ref
  cases template_ref_of v with
  | none => rfl
  | some ref =>
    simp only [scan_steps_eq_findSome]

/-- C5: the source resolution maps each argument independently through the
spec-described lookup — values that are not exactly a double-brace reference
pass through unmodified, a reference is resolved by scanning the COMPLETED
steps for dict results (top-level key, else dotted descent), and an unresolvable
reference keeps the literal placeholder; in particular a prior completed
result with `candidates = [1,2,3]` makes a later double-brace `candidates`
argument resolve to `[1,2,3]`, and an unresolvable reference passes through. -/
theorem c5_template_substitution :
    (∀ (wf : WorkflowPlan) (args : List (String × PyVal)),
        resolve_template_variables wf args =
          args.map (fun kv => (kv.1, spec_resolve_value wf kv.2)))
    ∧ resolve_template_variables templateExamplePlan
        [("items", .str "\x7b\x7bcandidates\x7d\x7d"), ("literal", .str "plain")] =
      [("items", .list [.int 1, .int 2, .int 3]), ("literal", .str "plain")]
    ∧ resolve_template_variables templateExamplePlan
        [("items", .str "\x7b\x7bmissing_ref\x7d\x7d")] =
      [("items", .str "\x7b\x7bmissing_ref\x7d\x7d")] := by
  refine ⟨fun wf args => ?_, rfl, rfl⟩
  unfold resolve_template_variables
  simp only [resolve_arg_value_eq_spec]

/-! ### C6: rollback replay order -/

/-- Every record in the replay list is attempted, whatever the individual
rollback outcomes: the per-record `try/except` never stops the loop. -/
lemma replay_rollbacks_attempts_all (act : RollbackAction) (l : List RollbackRecord) :
    replay_rollbacks act l = l := by
  induction l with
  | nil => rfl
  | cons r rest ih =>
    unfold replay_rollbacks
    cases act r <;> rw [ih]

/-- C6: for every stack and plan id, the rollback pass replays exactly the
records of the plan in reverse push order (regardless of individual rollback
failures) and purges exactly the records of that plan; and in the concrete A/B/C
scenario (A completes before B, C fails) the rollback for B runs before the
rollback for A, the records of the plan are purged, and the foreign record of
another plan survives. -/
theorem c6_rollback_replay_order :
    (∀ (act : RollbackAction) (wid : String) (stack : List RollbackRecord),
        (rollback_workflow act wid stack).1 =
          (stack.filter (fun rb => rb.workflow_id == wid)).reverse ∧
        (rollback_workflow act wid stack).2 =
          stack.filter (fun rb => !(rb.workflow_id == wid)))
    ∧ abcOutcome.calls.map Prod.fst = ["toolA", "toolB", "toolC"]
    ∧ abcOutcome.rollbacks.map (fun rb => rb.step_id) = ["B", "A"]
    ∧ abcOutcome.rollbacks.map (fun rb => rb.workflow_id) = ["wf-3", "wf-3"]
    ∧ abcOutcome.stack = [foreignRecord]
    ∧ abcOutcome.plan.status = some .rolled_back
    ∧ abcOutcome.response.success = false
    ∧ abcOutcome.response.failed_step = some "C" := by
  refine ⟨fun act wid stack => ⟨?_, rfl⟩, by decide, by decide, by decide, rfl,
    by decide, by decide, by decide⟩
  unfold rollback_workflow
  exact replay_rollbacks_attempts_all act _

/-! ### C8: unknown tools are not rejected by validation (code bug) -/

/-- C8 (evaluation of the code at the failing input): `_tool_exists` is a stub
that accepts every tool name, so a plan whose step names a tool that exists
neither on the client nor in the pseudo-tool catalog validates with no errors,
and is only discovered at dispatch time: execution invokes the unknown tool,
the step fails with the unknown-workflow-tool error, and the plan is not
rejected before execution as the spec requires. -/
theorem c8_unknown_tool_validation_gap :
    (∀ nm : String, tool_exists nm = true)
    ∧ (validate_workflow unknownToolPlan).valid = true
    ∧ (validate_workflow unknownToolPlan).errors = []
    ∧ (execute_workflow (fun _ => none) rbActOk unknownToolPlan []).calls.map Prod.fst =
        ["nonexistent_tool_xyz"]
    ∧ (execute_workflow (fun _ => none) rbActOk unknownToolPlan []).response.success = false
    ∧ (execute_workflow (fun _ => none) rbActOk unknownToolPlan []).plan.steps.map
        (fun st => st.error) = [some "Unknown workflow tool: nonexistent_tool_xyz"] := by
  exact ⟨fun _ => rfl, by decide, rfl, by decide, by decide, by decide⟩

/-! ### C9: confirming with false cancels without side effects -/

/-- C9: cancelling a pending plan returns the cancellation success response,
removes exactly that entry from the pending registry, leaves the rollback
stack untouched, marks the plan CANCELLED with its steps (statuses, results,
errors) unchanged, and invokes no tool. -/
theorem c9_confirm_false_cancels (client : ToolClient) (act : RollbackAction)
    (wid : String) (wf : WorkflowPlan) (st : OrchState)
    (h : alGet st.pending wid = some wf) :
    confirm_workflow client act wid false st =
      { response := .cancelled
        state := { pending := st.pending.filter (fun p => !(p.1 == wid)), stack := st.stack }
        plan := some { wf with status := some .cancelled }
        calls := [], rollbacks := [], assigns := [.cancelled] }
    ∧ orchSuccess (confirm_workflow client act wid false st).response = true
    ∧ (confirm_workflow client act wid false st).plan.map (fun p => p.steps) = some wf.steps
    ∧ (confirm_workflow client act wid false st).calls = [] := by
  have key : confirm_workflow client act wid false st =
      { response := .cancelled
        state := { pending := st.pending.filter (fun p => !(p.1 == wid)), stack := st.stack }
        plan := some { wf with status := some .cancelled }
        calls := [], rollbacks := [], assigns := [.cancelled] } := by
    unfold confirm_workflow
    rw [h]
    rfl
  exact ⟨key, by rw [key]; rfl, by rw [key]; rfl, by rw [key]⟩

/-- A pending plan and a registry holding it, for the C9 witness. -/
def c9DemoPlan : WorkflowPlan :=
  { id := "wf-7", title := "demo", description := "demo"
    steps :=
      [ { id := "only", description := "only step", tool_name := "search_workbooks"
          arguments := [], operation_type := .read } ] }

/-- Orchestrator state with the demo plan pending. -/
def c9DemoState : OrchState :=
  { pending := [("wf-7", c9DemoPlan)] }

/-- Witness for `c9_confirm_false_cancels` at a concrete pending registry. -/
theorem c9_confirm_false_cancels_witness :
    orchSuccess (confirm_workflow mockTableauClient rbActOk "wf-7" false c9DemoState).response = true
    ∧ (confirm_workflow mockTableauClient rbActOk "wf-7" false c9DemoState).calls = []
    ∧ (confirm_workflow mockTableauClient rbActOk "wf-7" false c9DemoState).plan.map
        (fun p => p.steps) = some c9DemoPlan.steps :=
  ⟨(c9_confirm_false_cancels mockTableauClient rbActOk "wf-7" c9DemoPlan c9DemoState rfl).2.1,
   (c9_confirm_false_cancels mockTableauClient rbActOk "wf-7" c9DemoPlan c9DemoState rfl).2.2.2,
   (c9_confirm_false_cancels mockTableauClient rbActOk "wf-7" c9DemoPlan c9DemoState rfl).2.2.1⟩

/-! ### C2 and C3: execution-order resolution -/

/-- The step ids of a plan, in order. -/
def stepIds (steps : List WorkflowStep) : List String :=
  steps.map (fun s => s.id)

/-- Every dependency reference names an existing step id. -/
def DepsClosed (steps : List WorkflowStep) : Prop :=
  ∀ s ∈ steps, ∀ d ∈ s.dependencies, d ∈ stepIds steps

/-- The dependency graph is acyclic: some rank strictly decreases along every
dependency edge (for a finite graph this is equivalent to having no cycle). -/
def AcyclicDeps (steps : List WorkflowStep) : Prop :=
  ∃ rank : String → Nat, ∀ s ∈ steps, ∀ d ∈ s.dependencies, rank d < rank s.id

/-- One dependency edge: some step with id `a` declares `b` as a dependency. -/
def StepDep (steps : List WorkflowStep) (a b : String) : Prop :=
  ∃ s ∈ steps, s.id = a ∧ b ∈ s.dependencies

/-- The dependency graph contains a cycle `a → l₀ → … → a`. -/
def HasCycle (steps : List WorkflowStep) : Prop :=
  ∃ (a : String) (l : List String), List.Chain (StepDep steps) a (l ++ [a])

/-- Some step references a nonexistent step id. -/
def HasDanglingDep (steps : List WorkflowStep) : Prop :=
  ∃ s ∈ steps, ∃ d ∈ s.dependencies, d ∉ stepIds steps

/-- Order invariant maintained by the greedy resolver: every already-ordered
step has all dependencies ordered strictly before it. -/
def DoneOK (steps : List WorkflowStep) (order : List String) : Prop :=
  ∀ s ∈ steps, s.id ∈ order → ∀ d ∈ s.dependencies,
    d ∈ order ∧ order.indexOf d < order.indexOf s.id

lemma step_eligible_iff (order : List String) (s : WorkflowStep) :
    step_eligible order s = true ↔
      (s.id ∉ order ∧ ∀ d ∈ s.dependencies, d ∈ order) := by
  simp [step_eligible]

lemma indexOf_append_left (a : String) (l t : List String) (h : a ∈ l) :
    (l ++ t).indexOf a = l.indexOf a := by
  induction l with
  | nil => simp at h
  | cons b rest ih =>
    rw [List.cons_append]
    by_cases hb : (b == a) = true
    · simp [List.indexOf_cons, hb]
    · have hmem : a ∈ rest := by
        rcases List.mem_cons.mp h with h1 | h1
        · exact absurd (by simp [h1]) hb
        · exact h1
      simp [List.indexOf_cons, hb, ih hmem]

lemma indexOf_append_self (x : String) (l : List String) (h : x ∉ l) :
    (l ++ [x]).indexOf x = l.length := by
  induction l with
  | nil => simp [List.indexOf_cons]
  | cons b rest ih =>
    have hbx : (b == x) = false := by
      cases hb : (b == x)
      · rfl
      · exact absurd (List.mem_cons.mpr (Or.inl (beq_iff_eq.mp hb).symm)) h
    rw [List.cons_append]
    simp [List.indexOf_cons, hbx, ih (fun hm => h (List.mem_cons_of_mem _ hm))]

lemma exists_min_key {α : Type} (f : α → Nat) (l : List α) (h : l ≠ []) :
    ∃ a ∈ l, ∀ b ∈ l, f a ≤ f b := by
  induction l with
  | nil => exact absurd rfl h
  | cons x rest ih =>
    cases rest with
    | nil => exact ⟨x, by simp, by simp⟩
    | cons y t =>
      obtain ⟨m, hm, hmin⟩ := ih (by simp)
      by_cases hc : f x ≤ f m
      · refine ⟨x, by simp, ?_⟩
        intro b hb
        rcases List.mem_cons.mp hb with rfl | hb2
        · exact le_refl _
        · exact le_trans hc (hmin b hb2)
      · refine ⟨m, List.mem_cons_of_mem _ hm, ?_⟩
        intro b hb
        rcases List.mem_cons.mp hb with rfl | hb2
        · omega
        · exact hmin b hb2

/-- While steps remain, an acyclic closed dependency graph with distinct ids
always offers an eligible step: the remaining step of minimal rank has all its
dependencies already ordered. -/
lemma exists_eligible (steps : List WorkflowStep) (hnd : (stepIds steps).Nodup)
    (hclosed : DepsClosed steps) (rank : String → Nat)
    (hrank : ∀ s ∈ steps, ∀ d ∈ s.dependencies, rank d < rank s.id)
    (order : List String) (hlen : order.length < steps.length) :
    ∃ s ∈ steps, step_eligible order s = true := by
  have hrem : ∃ s ∈ steps, s.id ∉ order := by
    by_contra hall
    push_neg at hall
    have hsub : stepIds steps ⊆ order := by
      intro x hx
      obtain ⟨s, hs, rfl⟩ := List.mem_map.mp hx
      exact hall s hs
    have hle := (hnd.subperm hsub).length_le
    have hlen2 : (stepIds steps).length = steps.length := List.length_map _ _
    omega
  obtain ⟨m, hmR, hmin⟩ :=
    exists_min_key (fun s => rank s.id) (steps.filter (fun s => !(order.contains s.id)))
      (by
        obtain ⟨s, hs, hno⟩ := hrem
        intro hR
        have hmem : s ∈ steps.filter (fun s => !(order.contains s.id)) :=
          List.mem_filter.mpr ⟨hs, by simpa using hno⟩
        rw [hR] at hmem
        simp at hmem)
  have hmsteps : m ∈ steps := (List.mem_filter.mp hmR).1
  have hmno : m.id ∉ order := by
    have := (List.mem_filter.mp hmR).2
    simpa using this
  refine ⟨m, hmsteps, (step_eligible_iff order m).mpr ⟨hmno, ?_⟩⟩
  intro d hd
  by_contra hdno
  obtain ⟨t, ht, htid⟩ := List.mem_map.mp (hclosed m hmsteps d hd)
  have htR : t ∈ steps.filter (fun s => !(order.contains s.id)) :=
    List.mem_filter.mpr ⟨ht, by simpa [htid] using hdno⟩
  have h1 : rank m.id ≤ rank t.id := hmin t htR
  have h2 : rank d < rank m.id := hrank m hmsteps d hd
  rw [htid] at h1
  omega

/-- Main loop invariant argument: with fuel matching the remaining step count,
the greedy resolver completes on an acyclic closed graph with distinct ids. -/
lemma resolveGo_ok (steps : List WorkflowStep) (hnd : (stepIds steps).Nodup)
    (hclosed : DepsClosed steps) (rank : String → Nat)
    (hrank : ∀ s ∈ steps, ∀ d ∈ s.dependencies, rank d < rank s.id) :
    ∀ (fuel : Nat) (order : List String),
      fuel + order.length = steps.length → order.Nodup →
      (∀ x ∈ order, x ∈ stepIds steps) → DoneOK steps order →
      ∃ final, resolveGo steps fuel order = .ok final ∧ final.Nodup ∧
        (∀ x ∈ final, x ∈ stepIds steps) ∧ final.length = steps.length ∧
        DoneOK steps final := by
  intro fuel
  induction fuel with
  | zero =>
    intro order hlen hnodup hsub hdone
    have hge : ¬ (order.length < steps.length) := by omega
    refine ⟨order, ?_, hnodup, hsub, by omega, hdone⟩
    unfold resolveGo
    rw [if_neg hge]
  | succ f ih =>
    intro order hlen hnodup hsub hdone
    have hlt : order.length < steps.length := by omega
    obtain ⟨w, hw, hwel⟩ := exists_eligible steps hnd hclosed rank hrank order hlt
    cases hfind : steps.find? (step_eligible order) with
    | none => exact absurd hwel (List.find?_eq_none.mp hfind w hw)
    | some s =>
      have hs_mem : s ∈ steps := List.mem_of_find?_eq_some hfind
      obtain ⟨hs_no, hs_deps⟩ := (step_eligible_iff order s).mp (List.find?_some hfind)
      have hnodup2 : (order ++ [s.id]).Nodup := by
        simp [List.nodup_append, hnodup, hs_no]
      have hsub2 : ∀ x ∈ order ++ [s.id], x ∈ stepIds steps := by
        intro x hx
        rcases List.mem_append.mp hx with h1 | h1
        · exact hsub x h1
        · simp at h1
          subst h1
          exact List.mem_map.mpr ⟨s, hs_mem, rfl⟩
      have hdone2 : DoneOK steps (order ++ [s.id]) := by
        intro t ht htin d hd
        by_cases h1 : t.id ∈ order
        · obtain ⟨hdin, hidx⟩ := hdone t ht h1 d hd
          refine ⟨List.mem_append.mpr (Or.inl hdin), ?_⟩
          rw [indexOf_append_left d order [s.id] hdin,
            indexOf_append_left t.id order [s.id] h1]
          exact hidx
        · have h2 : t.id = s.id := by
            rcases List.mem_append.mp htin with ha | hb
            · exact absurd ha h1
            · simpa using hb
          have hts : t = s := List.inj_on_of_nodup_map hnd ht hs_mem h2
          have hdep_s : d ∈ s.dependencies := by
            rw [← hts]
            exact hd
          have hdin : d ∈ order := hs_deps d hdep_s
          refine ⟨List.mem_append.mpr (Or.inl hdin), ?_⟩
          rw [indexOf_append_left d order [s.id] hdin, h2,
            indexOf_append_self s.id order hs_no]
          exact List.indexOf_lt_length.mpr hdin
      have hlen2 : f + (order ++ [s.id]).length = steps.length := by
        simp only [List.length_append, List.length_cons, List.length_nil]
        omega
      obtain ⟨final, hfin, hrest⟩ := ih (order ++ [s.id]) hlen2 hnodup2 hsub2 hdone2
      refine ⟨final, ?_, hrest⟩
      unfold resolveGo
      rw [if_pos hlt, hfind]
      exact hfin

/-- C2: on a list of steps whose dependency references form an acyclic graph
over existing, distinct step ids, the execution-order resolver terminates with
success and returns a permutation of all step ids in which every step appears
strictly after each of its declared dependencies. -/
theorem c2_resolver_topological_sort (steps : List WorkflowStep)
    (hnd : (stepIds steps).Nodup) (hclosed : DepsClosed steps)
    (hacyc : AcyclicDeps steps) :
    ∃ order, resolve_execution_order steps = .ok order ∧
      order.Perm (stepIds steps) ∧
      ∀ s ∈ steps, ∀ d ∈ s.dependencies,
        order.indexOf d < order.indexOf s.id := by
  obtain ⟨rank, hrank⟩ := hacyc
  obtain ⟨final, hok, hfnd, hfsub, hflen, hfdone⟩ :=
    resolveGo_ok steps hnd hclosed rank hrank steps.length [] (by simp) (by simp)
      (by simp) (by intro s hs hin; simp at hin)
  have hperm : final.Perm (stepIds steps) :=
    (hfnd.subperm hfsub).perm_of_length_le (by simp [stepIds, hflen])
  refine ⟨final, hok, hperm, ?_⟩
  intro s hs d hd
  have hsid : s.id ∈ final :=
    hperm.mem_iff.mpr (List.mem_map.mpr ⟨s, hs, rfl⟩)
  exact (hfdone s hs hsid d hd).2

/-- Witness for `c2_resolver_topological_sort` at the concrete three-step
chain. -/
theorem c2_resolver_topological_sort_witness :
    (stepIds chainSteps).Nodup ∧ DepsClosed chainSteps ∧ AcyclicDeps chainSteps ∧
    (∃ order, resolve_execution_order chainSteps = .ok order ∧
      order.Perm (stepIds chainSteps) ∧
      ∀ s ∈ chainSteps, ∀ d ∈ s.dependencies,
        order.indexOf d < order.indexOf s.id) := by
  have h1 : (stepIds chainSteps).Nodup := by decide
  have h2 : DepsClosed chainSteps := by
    unfold DepsClosed stepIds
    decide
  have h3 : AcyclicDeps chainSteps :=
    ⟨fun i => if i = "p" then 0 else if i = "q" then 1 else 2, by decide⟩
  exact ⟨h1, h2, h3, c2_resolver_topological_sort chainSteps h1 h2 h3⟩

/-- Along a chain ending in `z`, every vertex of `a :: l` has a successor. -/
lemma chain_succ_general {R : String → String → Prop} :
    ∀ (l : List String) (a z : String), List.Chain R a (l ++ [z]) →
      ∀ x ∈ a :: l, ∃ y ∈ a :: (l ++ [z]), R x y := by
  intro l
  induction l with
  | nil =>
    intro a z hch x hx
    simp at hx
    subst hx
    cases hch with
    | cons h _ => exact ⟨z, by simp, h⟩
  | cons b t ih =>
    intro a z hch x hx
    cases hch with
    | cons hab hrest =>
      rcases List.mem_cons.mp hx with rfl | hx2
      · exact ⟨b, by simp, hab⟩
      · obtain ⟨y, hy, hxy⟩ := ih b z hrest x hx2
        refine ⟨y, ?_, hxy⟩
        simp only [List.cons_append, List.mem_cons, List.mem_append] at hy ⊢
        tauto

/-- On a cycle, every member has a successor inside the cycle. -/
lemma cycle_member_has_succ {steps : List WorkflowStep} (a : String) (l : List String)
    (hch : List.Chain (StepDep steps) a (l ++ [a])) :
    ∀ x ∈ a :: l, ∃ y ∈ a :: l, StepDep steps x y := by
  intro x hx
  obtain ⟨y, hy, hxy⟩ := chain_succ_general l a a hch x hx
  refine ⟨y, ?_, hxy⟩
  simp only [List.mem_cons, List.mem_append] at hy ⊢
  tauto

/-- If some nonempty set `B` of existing step ids can never contain an
eligible step while none of `B` is ordered, the greedy resolver raises the
cannot-resolve error (it can never finish, because the ids in `B` are never
appended). -/
lemma resolveGo_stuck (steps : List WorkflowStep) (B : List String) (hBne : B ≠ [])
    (hBsub : ∀ b ∈ B, b ∈ stepIds steps) (hnd : (stepIds steps).Nodup)
    (hblock : ∀ (order : List String), (∀ x ∈ order, x ∈ stepIds steps) →
      (∀ b ∈ B, b ∉ order) → ∀ s ∈ steps, step_eligible order s = true → s.id ∉ B) :
    ∀ (fuel : Nat) (order : List String), fuel + order.length = steps.length →
      order.Nodup → (∀ x ∈ order, x ∈ stepIds steps) → (∀ b ∈ B, b ∉ order) →
      ∃ ord2, resolveGo steps fuel order = .error (cannot_resolve_msg steps ord2) := by
  intro fuel
  induction fuel with
  | zero =>
    intro order hlen hnodup hsub hBfree
    exfalso
    have hex : ∃ b0, b0 ∈ B := by
      cases B with
      | nil => exact absurd rfl hBne
      | cons b bs => exact ⟨b, by simp⟩
    obtain ⟨b0, hb0⟩ := hex
    have hnodup2 : (order ++ [b0]).Nodup := by
      simp [List.nodup_append, hnodup, hBfree b0 hb0]
    have hsub2 : (order ++ [b0]) ⊆ stepIds steps := by
      intro x hx
      rcases List.mem_append.mp hx with h1 | h1
      · exact hsub x h1
      · simp at h1
        subst h1
        exact hBsub _ hb0
    have hle := (hnodup2.subperm hsub2).length_le
    simp only [List.length_append, List.length_cons, List.length_nil, stepIds,
      List.length_map] at hle
    omega
  | succ f ih =>
    intro order hlen hnodup hsub hBfree
    have hlt : order.length < steps.length := by omega
    cases hfind : steps.find? (step_eligible order) with
    | none =>
      refine ⟨order, ?_⟩
      unfold resolveGo
      rw [if_pos hlt, hfind]
    | some s =>
      have hs_mem : s ∈ steps := List.mem_of_find?_eq_some hfind
      have hs_el := List.find?_some hfind
      obtain ⟨hs_no, hs_deps⟩ := (step_eligible_iff order s).mp hs_el
      have hsB : s.id ∉ B := hblock order hsub hBfree s hs_mem hs_el
      have hnodup2 : (order ++ [s.id]).Nodup := by
        simp [List.nodup_append, hnodup, hs_no]
      have hsub2 : ∀ x ∈ order ++ [s.id], x ∈ stepIds steps := by
        intro x hx
        rcases List.mem_append.mp hx with h1 | h1
        · exact hsub x h1
        · simp at h1
          subst h1
          exact List.mem_map.mpr ⟨s, hs_mem, rfl⟩
      have hBfree2 : ∀ b ∈ B, b ∉ order ++ [s.id] := by
        intro b hb hmem
        rcases List.mem_append.mp hmem with h1 | h1
        · exact hBfree b hb h1
        · simp at h1
          subst h1
          exact hsB hb
      have hlen2 : f + (order ++ [s.id]).length = steps.length := by
        simp only [List.length_append, List.length_cons, List.length_nil]
        omega
      obtain ⟨ord2, h2⟩ := ih (order ++ [s.id]) hlen2 hnodup2 hsub2 hBfree2
      refine ⟨ord2, ?_⟩
      unfold resolveGo
      rw [if_pos hlt, hfind]
      exact h2

/-- With duplicate step ids, the second step of a duplicated id can never
become eligible, so the resolver always raises. -/
lemma resolveGo_dup (steps : List WorkflowStep) (hdup : ¬ (stepIds steps).Nodup) :
    ∀ (fuel : Nat) (order : List String), fuel + order.length = steps.length →
      order.Nodup → (∀ x ∈ order, x ∈ stepIds steps) →
      ∃ ord2, resolveGo steps fuel order = .error (cannot_resolve_msg steps ord2) := by
  intro fuel
  induction fuel with
  | zero =>
    intro order hlen hnodup hsub
    exfalso
    have hsp := hnodup.subperm (fun x hx => hsub x hx)
    have hle := hsp.length_le
    have hlen2 : (stepIds steps).length = steps.length := List.length_map _ _
    have heq : order.length = (stepIds steps).length := by omega
    have hperm := hsp.perm_of_length_le (by omega)
    exact hdup (hperm.nodup_iff.mp hnodup)
  | succ f ih =>
    intro order hlen hnodup hsub
    have hlt : order.length < steps.length := by
      have hsp := hnodup.subperm (fun x hx => hsub x hx)
      have hle := hsp.length_le
      have hlen2 : (stepIds steps).length = steps.length := List.length_map _ _
      rcases Nat.lt_or_ge order.length steps.length with h | h
      · exact h
      · exfalso
        have hperm := hsp.perm_of_length_le (by omega)
        exact hdup (hperm.nodup_iff.mp hnodup)
    cases hfind : steps.find? (step_eligible order) with
    | none =>
      refine ⟨order, ?_⟩
      unfold resolveGo
      rw [if_pos hlt, hfind]
    | some s =>
      have hs_mem : s ∈ steps := List.mem_of_find?_eq_some hfind
      obtain ⟨hs_no, _⟩ := (step_eligible_iff order s).mp (List.find?_some hfind)
      have hnodup2 : (order ++ [s.id]).Nodup := by
        simp [List.nodup_append, hnodup, hs_no]
      have hsub2 : ∀ x ∈ order ++ [s.id], x ∈ stepIds steps := by
        intro x hx
        rcases List.mem_append.mp hx with h1 | h1
        · exact hsub x h1
        · simp at h1
          subst h1
          exact List.mem_map.mpr ⟨s, hs_mem, rfl⟩
      have hlen2 : f + (order ++ [s.id]).length = steps.length := by
        simp only [List.length_append, List.length_cons, List.length_nil]
        omega
      obtain ⟨ord2, h2⟩ := ih (order ++ [s.id]) hlen2 hnodup2 hsub2
      refine ⟨ord2, ?_⟩
      unfold resolveGo
      rw [if_pos hlt, hfind]
      exact h2

/-- A cyclic or dangling dependency graph always makes the resolver raise the
cannot-resolve-execution-order error. -/
lemma resolve_error_of_bad (steps : List WorkflowStep)
    (h : HasCycle steps ∨ HasDanglingDep steps) :
    ∃ ord2, resolve_execution_order steps = .error (cannot_resolve_msg steps ord2) := by
  unfold resolve_execution_order
  by_cases hnd : (stepIds steps).Nodup
  · rcases h with hcyc | hdang
    · obtain ⟨a, l, hch⟩ := hcyc
      refine resolveGo_stuck steps (a :: l) (by simp) ?_ hnd ?_ steps.length []
        (by simp) (by simp) (by simp) (by simp)
      · intro b hb
        obtain ⟨y, hy, hdep⟩ := cycle_member_has_succ a l hch b hb
        obtain ⟨s, hs, hsid, _⟩ := hdep
        exact hsid ▸ List.mem_map.mpr ⟨s, hs, rfl⟩
      · intro order hsub hBfree s hs hel hsB
        obtain ⟨y, hy, hdep⟩ := cycle_member_has_succ a l hch s.id hsB
        obtain ⟨t, ht, htid, hydep⟩ := hdep
        have hts : t = s := List.inj_on_of_nodup_map hnd ht hs htid
        obtain ⟨_, hdeps⟩ := (step_eligible_iff order s).mp hel
        have hyo : y ∈ order := hdeps y (by rw [← hts]; exact hydep)
        exact hBfree y hy hyo
    · obtain ⟨s0, hs0, d0, hd0, hd0n⟩ := hdang
      refine resolveGo_stuck steps [s0.id] (by simp) ?_ hnd ?_ steps.length []
        (by simp) (by simp) (by simp) (by simp)
      · intro b hb
        simp at hb
        subst hb
        exact List.mem_map.mpr ⟨s0, hs0, rfl⟩
      · intro order hsub hBfree s hs hel hsB
        simp at hsB
        have hss : s = s0 := List.inj_on_of_nodup_map hnd hs hs0 hsB
        obtain ⟨_, hdeps⟩ := (step_eligible_iff order s).mp hel
        have hdo : d0 ∈ order := hdeps d0 (by rw [hss]; exact hd0)
        exact hd0n (hsub d0 hdo)
  · exact resolveGo_dup steps hnd steps.length [] (by simp) (by simp) (by simp)

lemma handle_workflow_failure_plan_steps (act : RollbackAction) (w : WorkflowPlan)
    (st : List RollbackRecord) :
    (handle_workflow_failure act w st).1.steps = w.steps := by
  unfold handle_workflow_failure
  split <;> rfl

lemma execute_workflow_of_resolve_error (client : ToolClient) (act : RollbackAction)
    (wf : WorkflowPlan) (stack : List RollbackRecord) (e : String)
    (herr : resolve_execution_order wf.steps = .error e) :
    execute_workflow client act wf stack =
      { response := { success := false, error := some e, rollback_performed := some true }
        plan := (handle_workflow_failure act { wf with status := some .in_progress } stack).1
        stack := (handle_workflow_failure act { wf with status := some .in_progress } stack).2.1
        calls := []
        rollbacks := (handle_workflow_failure act { wf with status := some .in_progress } stack).2.2.1
        assigns := .in_progress ::
          (handle_workflow_failure act { wf with status := some .in_progress } stack).2.2.2 } := by
  have herr2 : resolve_execution_order
      ({ wf with status := some WorkflowStatus.in_progress } : WorkflowPlan).steps =
      .error e := herr
  simp only [execute_workflow]
  rw [herr2]

/-- C3: executing a plan whose dependency graph has a cycle or a dangling
reference raises the cannot-resolve-execution-order error before any step is
dispatched: the response fails with that error, the steps (statuses, results,
errors) are untouched, and no tool — external or pseudo-tool — is invoked. -/
theorem c3_unresolvable_plan_no_side_effects (wf : WorkflowPlan)
    (client : ToolClient) (act : RollbackAction) (stack : List RollbackRecord)
    (h : HasCycle wf.steps ∨ HasDanglingDep wf.steps) :
    (∃ ord2, resolve_execution_order wf.steps =
        .error (cannot_resolve_msg wf.steps ord2))
    ∧ (execute_workflow client act wf stack).response.success = false
    ∧ (∃ ord2, (execute_workflow client act wf stack).response.error =
        some (cannot_resolve_msg wf.steps ord2))
    ∧ (execute_workflow client act wf stack).plan.steps = wf.steps
    ∧ (execute_workflow client act wf stack).calls = [] := by
  obtain ⟨ord2, herr⟩ := resolve_error_of_bad wf.steps h
  have key := execute_workflow_of_resolve_error client act wf stack
    (cannot_resolve_msg wf.steps ord2) herr
  refine ⟨⟨ord2, herr⟩, ?_, ⟨ord2, ?_⟩, ?_, ?_⟩ <;> rw [key]
  exact handle_workflow_failure_plan_steps act _ stack

/-- Witness for `c3_unresolvable_plan_no_side_effects` at the concrete cyclic
plan. -/
theorem c3_unresolvable_plan_no_side_effects_witness :
    HasCycle cyclicPlan.steps
    ∧ (execute_workflow mockTableauClient rbActOk cyclicPlan []).response.success = false
    ∧ (execute_workflow mockTableauClient rbActOk cyclicPlan []).plan.steps = cyclicPlan.steps
    ∧ (execute_workflow mockTableauClient rbActOk cyclicPlan []).calls = [] := by
  have hab : StepDep cyclicPlan.steps "a" "b" := by
    unfold StepDep cyclicPlan cyclicSteps
    decide
  have hba : StepDep cyclicPlan.steps "b" "a" := by
    unfold StepDep cyclicPlan cyclicSteps
    decide
  have hcyc : HasCycle cyclicPlan.steps :=
    ⟨"a", ["b"], List.Chain.cons hab (List.Chain.cons hba List.Chain.nil)⟩
  have h := c3_unresolvable_plan_no_side_effects cyclicPlan mockTableauClient rbActOk []
    (Or.inl hcyc)
  exact ⟨hcyc, h.2.1, h.2.2.2.1, h.2.2.2.2⟩

/-! ### C10: status-field discipline -/

/-- The statuses the source ever assigns to a plan or step status field. -/
def okAssigns : List WorkflowStatus :=
  [.in_progress, .completed, .failed, .rolled_back, .cancelled]

lemma okAssigns_not_waiting (a : WorkflowStatus) (h : a ∈ okAssigns) :
    a ≠ .waiting_confirmation := by
  simp [okAssigns] at h
  rcases h with rfl | rfl | rfl | rfl | rfl <;> decide

lemma handle_workflow_failure_assigns (act : RollbackAction) (w : WorkflowPlan)
    (st : List RollbackRecord) :
    ∀ a ∈ (handle_workflow_failure act w st).2.2.2, a ∈ okAssigns := by
  intro a ha
  unfold handle_workflow_failure at ha
  simp only [okAssigns, List.mem_cons, List.not_mem_nil, or_false]
  split at ha <;> simp at ha <;> tauto

lemma run_steps_assigns (client : ToolClient) (act : RollbackAction) :
    ∀ (order : List String) (wf : WorkflowPlan) (stack : List RollbackRecord),
      ∀ a ∈ (run_steps client act order wf stack).assigns, a ∈ okAssigns := by
  intro order
  induction order with
  | nil =>
    intro wf stack a ha
    unfold run_steps at ha
    simp at ha
    simp [ha, okAssigns]
  | cons sid rest ih =>
    intro wf stack a ha
    unfold run_steps at ha
    cases hfind : wf.steps.find? (fun s => s.id == sid) with
    | none =>
      rw [hfind] at ha
      exact handle_workflow_failure_assigns act wf stack a ha
    | some step =>
      rw [hfind] at ha
      dsimp only at ha
      rcases hex : execute_step client wf step with ⟨res, call⟩
      rw [hex] at ha
      cases res with
      | ok v =>
        dsimp only at ha
        rcases List.mem_cons.mp ha with rfl | ha2
        · simp [okAssigns]
        · exact ih _ _ a ha2
      | error e =>
        dsimp only at ha
        rcases List.mem_cons.mp ha with rfl | ha2
        · simp [okAssigns]
        · exact handle_workflow_failure_assigns act _ stack a ha2

lemma execute_workflow_assigns (client : ToolClient) (act : RollbackAction)
    (wf : WorkflowPlan) (stack : List RollbackRecord) :
    ∀ a ∈ (execute_workflow client act wf stack).assigns, a ∈ okAssigns := by
  intro a ha
  unfold execute_workflow at ha
  dsimp only at ha
  cases hres : resolve_execution_order wf.steps with
  | error e =>
    rw [hres] at ha
    dsimp only at ha
    rcases List.mem_cons.mp ha with rfl | ha2
    · simp [okAssigns]
    · exact handle_workflow_failure_assigns act _ stack a ha2
  | ok order =>
    rw [hres] at ha
    dsimp only at ha
    rcases List.mem_cons.mp ha with rfl | ha2
    · simp [okAssigns]
    · exact run_steps_assigns client act order _ stack a ha2

lemma parse_workflow_intent_status (freshId request : String) :
    (parse_workflow_intent freshId request).status = none := by
  unfold parse_workflow_intent
  cases match_workflow_template request with
  | none =>
    dsimp only
    unfold pattern_parse_workflow
    dsimp only
    split <;> rfl
  | some tm =>
    dsimp only
    cases tm <;> rfl

lemma process_parsed_workflow_assigns (client : ToolClient) (act : RollbackAction)
    (wf : WorkflowPlan) (st : OrchState) :
    ∀ a ∈ (process_parsed_workflow client act wf st).assigns, a ∈ okAssigns := by
  intro a ha
  unfold process_parsed_workflow at ha
  dsimp only at ha
  split at ha
  · simp at ha
  · split at ha
    · simp at ha
    · exact execute_workflow_assigns client act wf st.stack a ha

lemma confirm_workflow_assigns (client : ToolClient) (act : RollbackAction)
    (wid : String) (confirmed : Bool) (st : OrchState) :
    ∀ a ∈ (confirm_workflow client act wid confirmed st).assigns, a ∈ okAssigns := by
  intro a ha
  unfold confirm_workflow at ha
  dsimp only at ha
  split at ha
  · simp at ha
  · split at ha
    · simp at ha
      simp [ha, okAssigns]
    · exact execute_workflow_assigns client act _ st.stack a ha

/-- C10 (amended): a parsed plan has no status attribute at all (`none`, not
PENDING); every plan newly stored in the pending-confirmation registry has no
status attribute; and across the executor and both orchestrator entry points,
every status ever assigned is IN_PROGRESS, COMPLETED, FAILED, ROLLED_BACK or
CANCELLED — WAITING_CONFIRMATION is declared but never assigned. -/
theorem c10_status_discipline_amended :
    (∀ freshId request : String, (parse_workflow_intent freshId request).status = none)
    ∧ (∀ (client : ToolClient) (act : RollbackAction) (freshId request : String)
        (st : OrchState),
        ∀ kv ∈ (process_workflow_request client act freshId request st).state.pending,
          kv ∈ st.pending ∨ kv.2.status = none)
    ∧ (∀ (client : ToolClient) (act : RollbackAction) (wf : WorkflowPlan)
        (stack : List RollbackRecord),
        ∀ a ∈ (execute_workflow client act wf stack).assigns,
          a ≠ .waiting_confirmation ∧ a ∈ okAssigns)
    ∧ (∀ (client : ToolClient) (act : RollbackAction) (freshId request : String)
        (st : OrchState),
        ∀ a ∈ (process_workflow_request client act freshId request st).assigns,
          a ≠ .waiting_confirmation ∧ a ∈ okAssigns)
    ∧ (∀ (client : ToolClient) (act : RollbackAction) (wid : String) (confirmed : Bool)
        (st : OrchState),
        ∀ a ∈ (confirm_workflow client act wid confirmed st).assigns,
          a ≠ .waiting_confirmation ∧ a ∈ okAssigns) := by
  refine ⟨parse_workflow_intent_status, ?_, ?_, ?_, ?_⟩
  · intro client act freshId request st kv hkv
    unfold process_workflow_request process_parsed_workflow at hkv
    dsimp only at hkv
    split at hkv
    · exact Or.inl hkv
    · split at hkv
      · simp only [alInsert] at hkv
        rcases List.mem_append.mp hkv with h1 | h1
        · exact Or.inl (List.mem_filter.mp h1).1
        · simp at h1
          subst h1
          exact Or.inr (parse_workflow_intent_status freshId request)
      · exact Or.inl hkv
  · intro client act wf stack a ha
    have h := execute_workflow_assigns client act wf stack a ha
    exact ⟨okAssigns_not_waiting a h, h⟩
  · intro client act freshId request st a ha
    have h := process_parsed_workflow_assigns client act _ st a ha
    exact ⟨okAssigns_not_waiting a h, h⟩
  · intro client act wid confirmed st a ha
    have h := confirm_workflow_assigns client act wid confirmed st a ha
    exact ⟨okAssigns_not_waiting a h, h⟩

/-- Witness for `c10_status_discipline_amended`: instantiated at the concrete
cancellation, whose assignment trace is nonempty. -/
theorem c10_status_discipline_amended_witness :
    WorkflowStatus.cancelled ≠ WorkflowStatus.waiting_confirmation ∧
    WorkflowStatus.cancelled ∈ okAssigns :=
  c10_status_discipline_amended.2.2.2.2 mockTableauClient rbActOk "wf-7" false c9DemoState
    WorkflowStatus.cancelled (by decide)

/-- C10 counterexample: the plan stored pending confirmation for the concrete
cleanup request has NO status value (the attribute is unset), not PENDING. -/
theorem c10_pending_status_counterexample :
    cleanupProcessOutcome.state.pending.map (fun kv => kv.2.status) = [none]
    ∧ ∀ kv ∈ cleanupProcessOutcome.state.pending,
        kv.2.status ≠ some WorkflowStatus.pending := by
  exact ⟨by decide, by decide⟩

/-! ### C1: end-to-end cleanup scenario -/

/-- The archetype a template match selects, as a tag. -/
def template_kind : Option TemplateMatch → String
  | some (.cleanup _ _) => "cleanup"
  | some (.migration _ _) => "migration"
  | some (.audit _) => "audit"
  | none => "none"

/-- The workflow id carried by a confirmation-required response. -/
def orchWorkflowId : OrchResponse → Option String
  | .confirmationRequired wid _ _ _ => some wid
  | _ => none

/-- The execution result carried by an executed response. -/
def orchExecResult : OrchResponse → Option ExecResponse
  | .executed r => some r
  | _ => none

/-- C1 counterexample: on the concrete request the risk assessment of the Validator
is "low" (not "medium" as claimed), and the confirmed execution does not
return success. -/
theorem c1_cleanup_scenario_counterexample :
    (assess_risk cleanupParsedPlan).level ≠ "medium"
    ∧ orchSuccess cleanupConfirmOutcome.response = false := by
  exact ⟨by decide, by decide⟩

/-- C1 (amended): "Clean up the Finance project" template-matches the cleanup
archetype with project "Finance" and parses to a plan with exactly the four
steps analyze, identify, confirm, archive; the plan validates; the Validator
assesses risk_level "low" with assessment-level confirmation NOT
required, but the plan-level `requires_confirmation` flag (set by the cleanup
template, which also sets the plan-level risk_level field to "medium") forces
the orchestrator to pause: the response is a waiting-confirmation response
carrying the plan id, storing the plan, with no step executed.  A subsequent
confirm(id, true) dispatches all four steps in dependency order, the first
three complete, and the final archive step fails (its `confirmed_items`
placeholder resolves to the still-unresolved `identified_candidates`
placeholder string, whose character-wise iteration inside `bulk_move_content`
raises), so the final response reports success=false with failed_step
archive_content, the plan ends FAILED with three of four steps completed, and
the pending entry is discarded. -/
theorem c1_cleanup_scenario_amended :
    template_kind (match_workflow_template cleanupRequest) = "cleanup"
    ∧ extract_project_name cleanupRequest = some "Finance"
    ∧ cleanupParsedPlan.steps.map (fun s => s.id) =
        ["analyze_content", "identify_candidates", "confirm_archival", "archive_content"]
    ∧ cleanupParsedPlan.requires_confirmation = true
    ∧ cleanupParsedPlan.risk_level = "medium"
    ∧ (validate_workflow cleanupParsedPlan).valid = true
    ∧ (assess_risk cleanupParsedPlan).level = "low"
    ∧ (assess_risk cleanupParsedPlan).requires_confirmation = false
    ∧ isConfirmationRequired cleanupProcessOutcome.response = true
    ∧ orchWorkflowId cleanupProcessOutcome.response = some "wf-1"
    ∧ cleanupProcessOutcome.calls = []
    ∧ (alGet cleanupProcessOutcome.state.pending "wf-1").isSome = true
    ∧ cleanupConfirmOutcome.calls.map Prod.fst =
        ["search_workbooks", "analyze_usage_patterns", "request_user_confirmation",
         "bulk_move_content"]
    ∧ orchExecResult cleanupConfirmOutcome.response =
        some { success := false
               error := some "Workflow failed at step: Move selected content to Archive project"
               failed_step := some "archive_content"
               rollback_performed := some true }
    ∧ cleanupConfirmOutcome.plan.map (fun p => p.steps.map (fun s => s.status)) =
        some [.completed, .completed, .completed, .failed]
    ∧ cleanupConfirmOutcome.plan.map (fun p => p.steps.map (fun s => s.error)) =
        some [none, none, none, some "AttributeError: object has no attribute get"]
    ∧ cleanupConfirmOutcome.plan.map (fun p => p.completed_steps) = some 3
    ∧ cleanupConfirmOutcome.plan.map (fun p => p.status) = some (some .failed)
    ∧ alGet cleanupConfirmOutcome.state.pending "wf-1" = none := by
  refine ⟨by decide, by decide, by decide, by decide, by decide, by decide, by decide,
    by decide, by decide, by decide, rfl, by decide, by decide, by decide, by decide,
    by decide, by decide, by decide, rfl⟩

/-! ### C7: migration failure scenario -/

/-- C7 counterexample: when the ownership-transfer step of the migration plan
fails, the plan status is FAILED, not ROLLED_BACK as claimed — no earlier step
of the migration plan carries rollback_info, so the rollback stack is empty
and `_handle_workflow_failure` skips the rollback pass entirely. -/
theorem c7_migration_failure_counterexample :
    migrationOutcome.plan.status ≠ some WorkflowStatus.rolled_back
    ∧ migrationOutcome.plan.status = some WorkflowStatus.failed := by
  exact ⟨by decide, by decide⟩

/-- C7 (amended): when the ownership-transfer step of the migration plan fails
during execution, the Executor marks that step FAILED and records its error;
every already-completed step that has rollback_info is rolled back in reverse
completion order — here there are none, because the steps preceding the
ownership transfer are READ steps without rollback_info — so the plan status
becomes FAILED (ROLLED_BACK would require a nonempty rollback stack), the
remaining step is never dispatched, and the failure response still reports
rollback_performed=true (the source hardcodes that field). -/
theorem c7_migration_failure_amended :
    migrationPlanJohn.steps.map (fun s => s.rollback_info.isSome) =
        [false, false, false, true, true]
    ∧ migrationOutcome.calls.map Prod.fst =
        ["get_user_content", "analyze_content_importance", "create_migration_plan",
         "bulk_transfer_ownership"]
    ∧ migrationOutcome.response.success = false
    ∧ migrationOutcome.response.failed_step = some "transfer_ownership"
    ∧ migrationOutcome.response.rollback_performed = some true
    ∧ migrationOutcome.plan.steps.map (fun s => s.status) =
        [.completed, .completed, .completed, .failed, .pending]
    ∧ migrationOutcome.plan.steps.map (fun s => s.error) =
        [none, none, none, some "Simulated ownership transfer failure", none]
    ∧ migrationOutcome.rollbacks = []
    ∧ migrationOutcome.stack = []
    ∧ migrationOutcome.plan.status = some WorkflowStatus.failed := by
  refine ⟨by decide, by decide, by decide, by decide, by decide, by decide, by decide,
    rfl, rfl, by decide⟩
